import Mathlib

/-! Session engine of `createClient` (packages/client/src/createClient.js).

A shallow embedding of the closure returned by `createClient`: the variables the
closure captures (`serial`, `scopeSerial`, `rpcs`, `scopeCalls`, `scopeManifests`,
`listeners`, `pending`, `socket`) become the fields of `State`; every function of
the closure becomes a function `State → Outcome` that returns the state after the
call, the calls it made on its collaborators (sockets, promise callbacks,
listeners, the store) in program order, the error it raised (if any) and its
return value.

Conventions of the embedding
* the counters are JavaScript numbers that only ever grow by one from zero; they
  are natural numbers here (exact below 2^53);
* a promise created by `new Promise(executor)` is named by a number; the pair
  `resolve`, `reject` handed to the executor is the pair of callbacks of that
  promise, and calling one of them is the effect `Effect.resolve` / `Effect.reject`;
* an object built by `reduce(..., {})` is named by a fresh reference number, so
  that two objects with the same members are still two objects;
* property keys are own properties (no key inherited from `Object.prototype`);
* listeners, promise callbacks, sockets and the store are collaborators: calling
  them is recorded, their bodies are not run.
-/

namespace Shocked

/-! ## Values and packets -/

/-- The JavaScript values that travel through the session. -/
inductive Value
  | undefined
  | null
  | bool (b : Bool)
  | num (n : Int)
  | str (s : String)
  | names (l : List String)
  | error (message : String)
  | capability (ref : Nat) (scopeId : String) (members : List String)
  deriving DecidableEq, Repr

/-- JavaScript truthiness (`if (v)`, `!v`, `v || w`). -/
def Value.truthy : Value → Bool
  | .undefined => false
  | .null => false
  | .bool b => b
  | .num n => n != 0
  | .str s => s != ""
  | .names _ => true
  | .error _ => true
  | .capability _ _ _ => true

/-- The optional second argument of `client.scope`: an object with an `apis` list. -/
structure Manifest where
  apis : List String
  deriving DecidableEq, Repr

/-- Modelled from the spec: the packet constructors `PKT_CALL`, `PKT_RPC_REQUEST`
and `PKT_SCOPE_REQUEST` of `shocked-common`, which is not part of the sources;
the fields are the arguments the session passes to them. -/
inductive Packet
  | call (scope api : String) (args : List Value)
  | rpcRequest (serial : Nat) (scope api : String) (args : List Value)
  | scopeRequest (serial : Nat) (name : String) (needsManifest : Bool)
  deriving DecidableEq, Repr

/-- Modelled from the spec: what `parser.parse` of `shocked-common` (not part of
the sources) decodes a frame to; it calls exactly one of `onEvent`, `onAction`,
`onRpcResponse`, `onScopeResponse`. -/
inductive Decoded
  | event (name : String) (data : Value)
  | action (payload : Value)
  | rpcResponse (tracker : Nat) (success result : Value)
  | scopeResponse (tracker : Nat) (success result : Value)
  deriving DecidableEq, Repr

/-- A call made by the session on one of its collaborators. -/
inductive Effect
  | socketNew (sock : Nat) (url : String)
  | socketClose (sock : Nat)
  | send (sock : Nat) (pkt : Packet)
  | resolve (promise : Nat) (value : Value)
  | reject (promise : Nat) (value : Value)
  | listener (fn : Nat) (data : Value)
  | dispatch (action : Value)
  deriving DecidableEq, Repr

/-- What a function of the client hands back to its caller. -/
inductive Ret
  | nothing
  | bool (b : Bool)
  | promise (p : Nat)
  | cancel (pkt : Option Packet)
  | unsubscribe (event : String) (fn : Nat)
  deriving DecidableEq, Repr

/-! ## Objects used as maps -/

/-- Property read `obj[k]` on an object used as a map. -/
def lookupKey {κ α : Type} [DecidableEq κ] (k : κ) : List (κ × α) → Option α
  | [] => none
  | (k', v) :: r => if k' = k then some v else lookupKey k r

/-- The statement `delete obj[k]`. -/
def deleteKey {κ α : Type} [DecidableEq κ] (k : κ) (t : List (κ × α)) : List (κ × α) :=
  t.filter (fun e => decide (e.1 ≠ k))

/-- Property write `obj[k] = v` with an integer key: integer keys of a JavaScript
object are kept in ascending order, an existing key keeps its place. -/
def setKey {α : Type} (k : Nat) (v : α) : List (Nat × α) → List (Nat × α)
  | [] => [(k, v)]
  | (k', v') :: r =>
    if k < k' then (k, v) :: (k', v') :: r
    else if k = k' then (k, v) :: r
    else (k', v') :: setKey k v r

/-- Property write `obj[k] = v` with a string key. -/
def setProp {α : Type} (k : String) (v : α) : List (String × α) → List (String × α)
  | [] => [(k, v)]
  | (k', v') :: r => if k' = k then (k, v) :: r else (k', v') :: setProp k v r

/-- The keys of an object used as a map. -/
def keysOf {κ α : Type} (t : List (κ × α)) : List κ := t.map Prod.fst

/-- The call `Object.values(obj)`. -/
def valuesOf {κ α : Type} (t : List (κ × α)) : List α := t.map Prod.snd

/-! ## The state captured by the closure -/

/-- The array `[resolve, reject, scope]` stored in `rpcs`: `deferred` names the
promise whose `resolve` and `reject` were stored. -/
structure RpcEntry where
  deferred : Nat
  scopeId : String
  deriving DecidableEq, Repr

/-- The array `[resolve, reject, name, manifest]` stored in `scopeCalls`. -/
structure ScopeEntry where
  deferred : Nat
  scopeId : String
  manifest : Option Manifest
  deriving DecidableEq, Repr

/-- The `readyState` of a socket. -/
inductive ReadyState
  | connecting
  | opened
  | closing
  | closed
  deriving DecidableEq, Repr

/-- A socket made by `new Socket(url)`: the two properties the session reads. -/
structure Sock where
  url : String
  readyState : ReadyState
  deriving DecidableEq, Repr

/-- The variables of the `createClient` closure, the sockets it has created
(a socket is named by its position in `sockets`), and the allocation counters
for promises and objects. -/
structure State where
  host : String
  hasNetwork : Bool
  serial : Nat
  scopeSerial : Nat
  rpcs : List (Nat × RpcEntry)
  scopeCalls : List (Nat × ScopeEntry)
  scopeManifests : List (String × Value)
  listeners : List (String × List Nat)
  pending : List Packet
  socket : Option Nat
  sockets : List Sock
  promises : Nat
  objects : Nat
  deriving DecidableEq, Repr

/-- The result of running one function of the closure. -/
structure Outcome where
  state : State
  effects : List Effect
  thrown : Option String
  ret : Ret
  deriving DecidableEq, Repr

/-- The `store` argument of `createClient`: which of the three members are there. -/
structure Store where
  dispatch : Bool
  getState : Bool
  subscribe : Bool
  deriving DecidableEq, Repr

/-- The closure variables right after `createClient` has run its declarations. -/
def initialState (host : String) (hasNetwork : Bool) : State :=
  { host := host, hasNetwork := hasNetwork, serial := 0, scopeSerial := 0,
    rpcs := [], scopeCalls := [], scopeManifests := [], listeners := [],
    pending := [], socket := none, sockets := [], promises := 0, objects := 0 }

/-- The method `String.prototype.startsWith`: the characters of `pre` are the
first characters of `s`. -/
def startsWith (s pre : String) : Bool := pre.data.isPrefixOf s.data

/-- The two checks at the top of `createClient` and the state it starts in. -/
def createClient (host : String) (store : Option Store) (network : Bool) : Except String State :=
  if !startsWith host "ws://" && !startsWith host "wss://" then
    .error "Invalid host. Host should start with ws:// or wss://"
  else
    match store with
    | none => .error "Invalid store. Store must be a valid redux store."
    | some st =>
      if !st.dispatch || !st.getState || !st.subscribe then
        .error "Invalid store. Store must be a valid redux store."
      else .ok (initialState host network)

/-! ## Helpers of the closure -/

/-- The function `fire(event, data)`: calls every listener of the event in order. -/
def fire (event : String) (data : Value) (s : State) : List Effect :=
  match lookupKey event s.listeners with
  | some ls => ls.map (fun l => Effect.listener l data)
  | none => []

/-- The function `deferSend(pkt)`: `pending.push(pkt)`. -/
def deferSend (pkt : Packet) (s : State) : State :=
  { s with pending := s.pending ++ [pkt] }

/-- The function returned by `deferSend(pkt)`: removes the first entry of
`pending` that `indexOf` finds equal to `pkt`, if there is one. -/
def cancelSend (pkt : Packet) (s : State) : State :=
  { s with pending := s.pending.erase pkt }

/-- The expression `socket && socket.readyState === Socket.OPEN`, for the value
of `socket` and the sockets as they are. -/
def openSocket (socket : Option Nat) (sockets : List Sock) : Bool :=
  match socket with
  | none => false
  | some k =>
    match sockets.get? k with
    | some sk => decide (sk.readyState = ReadyState.opened)
    | none => false

/-- The method `client.isConnected`. -/
def isConnected (s : State) : Bool := openSocket s.socket s.sockets

/-- The property `socket.url` of the current socket. -/
def socketUrl (s : State) : Option String :=
  match s.socket with
  | none => none
  | some k => (s.sockets.get? k).map Sock.url

/-- The call `socket.send(pkt)` on the current socket. -/
def socketSend (pkt : Packet) (s : State) : List Effect :=
  match s.socket with
  | some k => [Effect.send k pkt]
  | none => []

/-- Replaces socket number `k` by `f` of it. -/
def updateSock (f : Sock → Sock) : Nat → List Sock → List Sock
  | _, [] => []
  | 0, sk :: r => f sk :: r
  | k + 1, sk :: r => sk :: updateSock f k r

/-- The `readyState` of socket `k` becomes `r` (done by the socket, not by the session). -/
def setReadyState (k : Nat) (r : ReadyState) (s : State) : State :=
  { s with sockets := updateSock (fun sk => { sk with readyState := r }) k s.sockets }

/-- The call `sock.close()` as the WebSocket interface defines it: a socket that
is not yet closed starts closing. -/
def closeSocket (k : Nat) (s : State) : State :=
  let closing : Sock → Sock := fun sk =>
    if sk.readyState = ReadyState.closed then sk else { sk with readyState := ReadyState.closing }
  { s with sockets := updateSock closing k s.sockets }

/-- The function `connection(remoteUrl)`: `new Socket(remoteUrl)`, unless the url is null. -/
def connection (remoteUrl : Option String) (s : State) : Option Nat × State × List Effect :=
  match remoteUrl with
  | none => (none, s, [])
  | some url =>
    (some s.sockets.length,
     { s with sockets := s.sockets ++ [{ url := url, readyState := ReadyState.connecting }] },
     [Effect.socketNew s.sockets.length url])

/-! ## Reactions to the socket -/

/-- An outcome that changes nothing and returns nothing. -/
def unchanged (s : State) : Outcome :=
  { state := s, effects := [], thrown := none, ret := Ret.nothing }

/-- The handler `sock.onopen` of socket `k`: sends every pending packet on `k`,
empties `pending`, fires `connect`. -/
def sock_onopen (k : Nat) (s : State) : Outcome :=
  { state := { s with pending := [] },
    effects := s.pending.map (Effect.send k) ++ fire "connect" Value.undefined s,
    thrown := none,
    ret := Ret.nothing }

/-- The failure `new Error('Connection terminated')`. -/
def terminated : Value := Value.error "Connection terminated"

/-- The array `Object.values(rpcs).concat(Object.values(scopeCalls))`, each
entry by the promise whose `reject` it holds. -/
def rejections (s : State) : List Nat :=
  (valuesOf s.rpcs).map RpcEntry.deferred ++ (valuesOf s.scopeCalls).map ScopeEntry.deferred

/-- The handler `sock.onclose`. -/
def sock_onclose (s : State) : Outcome :=
  { state := { s with pending := [], rpcs := [], scopeCalls := [], scopeManifests := [] },
    effects := (rejections s).map (fun p => Effect.reject p terminated)
      ++ fire "disconnect" Value.undefined s,
    thrown := none,
    ret := Ret.nothing }

/-- The handler `sock.onerror`, called with an event whose `message` is `message`. -/
def sock_onerror (message : Value) (s : State) : Outcome :=
  { state := { s with rpcs := [], scopeCalls := [], pending := [] },
    effects := (rejections s).map (fun p => Effect.reject p message)
      ++ fire "error" message s,
    thrown := none,
    ret := Ret.nothing }

/-! ## The methods of `client` -/

/-- The executor of `client.rpc(scope, api, ...args)`, run by `new Promise`. -/
def client_rpc (scope api : String) (args : List Value) (s : State) : Outcome :=
  let p := s.promises
  let serial := s.serial + 1
  let s1 := { s with promises := p + 1, serial := serial,
                     rpcs := setKey serial { deferred := p, scopeId := scope } s.rpcs }
  let pkt := Packet.rpcRequest serial scope api args
  if !isConnected s1 then
    { state := deferSend pkt s1, effects := [], thrown := none, ret := Ret.promise p }
  else
    { state := s1, effects := socketSend pkt s1, thrown := none, ret := Ret.promise p }

/-- The object `names.reduce((res, name) => { res[name] = (...args) =>
client.rpc(scopeId, name, ...args); return res; }, {})`, with a fresh reference. -/
def buildCapability (scopeId : String) (names : List String) (s : State) : Value × State :=
  (Value.capability s.objects scopeId names, { s with objects := s.objects + 1 })

/-- Whether `obj[name]` is one of the forwarding functions of a capability object. -/
def hasMember (obj : Value) (name : String) : Bool :=
  match obj with
  | Value.capability _ _ members => decide (name ∈ members)
  | _ => false

/-- The call `obj[name](...args)` on a value: a member of a capability object
runs `client.rpc(scopeId, name, ...args)`; anything else is not a function. -/
def invokeMember (obj : Value) (name : String) (args : List Value) (s : State) : Outcome :=
  match obj with
  | Value.capability _ scopeId members =>
    if name ∈ members then client_rpc scopeId name args s
    else { state := s, effects := [], thrown := some "TypeError: not a function", ret := Ret.nothing }
  | _ => { state := s, effects := [], thrown := some "TypeError: not a function", ret := Ret.nothing }

/-- The callback `parser.onRpcResponse(tracker, success, result)`. -/
def onRpcResponse (tracker : Nat) (success result : Value) (s : State) : Outcome :=
  match lookupKey tracker s.rpcs with
  | none =>
    { state := s, effects := [], thrown := some "TypeError: undefined is not iterable",
      ret := Ret.nothing }
  | some e =>
    let s1 := { s with rpcs := deleteKey tracker s.rpcs }
    if success.truthy then
      if success = Value.num (-1) then
        match result with
        | Value.names l =>
          let built := buildCapability e.scopeId l s1
          { state := built.2, effects := [Effect.resolve e.deferred built.1], thrown := none,
            ret := Ret.nothing }
        | _ =>
          { state := s1, effects := [], thrown := some "TypeError: result.reduce is not a function",
            ret := Ret.nothing }
      else
        { state := s1, effects := [Effect.resolve e.deferred result], thrown := none,
          ret := Ret.nothing }
    else
      { state := s1, effects := [Effect.reject e.deferred result], thrown := none,
        ret := Ret.nothing }

/-- The expression `result || manifest.apis`. -/
def effectiveApis (result : Value) (manifest : Option Manifest) : Except String Value :=
  if result.truthy then Except.ok result
  else
    match manifest with
    | some m => Except.ok (Value.names m.apis)
    | none => Except.error "TypeError: cannot read property apis of null"

/-- The callback `parser.onScopeResponse(tracker, success, result)`. -/
def onScopeResponse (tracker : Nat) (success result : Value) (s : State) : Outcome :=
  match lookupKey tracker s.scopeCalls with
  | none =>
    { state := s, effects := [], thrown := some "TypeError: undefined is not iterable",
      ret := Ret.nothing }
  | some e =>
    let s1 := { s with scopeCalls := deleteKey tracker s.scopeCalls }
    if !success.truthy then
      { state := s1, effects := [Effect.reject e.deferred result], thrown := none,
        ret := Ret.nothing }
    else
      match effectiveApis result e.manifest with
      | Except.ok (Value.names l) =>
        let built := buildCapability e.scopeId l s1
        { state := { built.2 with
                     scopeManifests := setProp e.scopeId built.1 built.2.scopeManifests },
          effects := [Effect.resolve e.deferred built.1], thrown := none, ret := Ret.nothing }
      | Except.ok _ =>
        { state := s1, effects := [], thrown := some "TypeError: apis.reduce is not a function",
          ret := Ret.nothing }
      | Except.error msg =>
        { state := s1, effects := [], thrown := some msg, ret := Ret.nothing }

/-- The handler `sock.onmessage`: `parser.parse(e.data)` calls one of the four
callbacks; `onEvent` is `fire`, `onAction` is `store.dispatch`. -/
def sock_onmessage (d : Decoded) (s : State) : Outcome :=
  match d with
  | Decoded.event name data =>
    { state := s, effects := fire name data s, thrown := none, ret := Ret.nothing }
  | Decoded.action payload =>
    { state := s, effects := [Effect.dispatch payload], thrown := none, ret := Ret.nothing }
  | Decoded.rpcResponse tracker success result => onRpcResponse tracker success result s
  | Decoded.scopeResponse tracker success result => onScopeResponse tracker success result s

/-- The statements `if (socket !== null) { socket.close(); }`. -/
def closeCurrent (s : State) : State × List Effect :=
  match s.socket with
  | some k => (closeSocket k s, [Effect.socketClose k])
  | none => (s, [])

/-- The method `client.connect(path)`. -/
def client_connect (path : String) (s : State) : Outcome :=
  let url := s.host ++ path
  if isConnected s && decide (socketUrl s = some url) then
    { state := s, effects := [], thrown := none, ret := Ret.bool true }
  else
    let c := closeCurrent s
    let n := connection (some url) c.1
    { state := { n.2.1 with socket := n.1 }, effects := c.2 ++ n.2.2, thrown := none,
      ret := Ret.bool true }

/-- The method `client.reconnect()`. -/
def client_reconnect (s : State) : Outcome :=
  match s.socket with
  | none => { state := s, effects := [], thrown := none, ret := Ret.bool false }
  | some _ =>
    let finalUrl := socketUrl s
    let c := closeCurrent s
    let n := connection finalUrl c.1
    { state := { n.2.1 with socket := n.1 }, effects := c.2 ++ n.2.2, thrown := none,
      ret := Ret.bool true }

/-- The method `client.close()`: `socket.close(); socket = null;`. -/
def client_close (s : State) : Outcome :=
  match s.socket with
  | none =>
    { state := s, effects := [], thrown := some "TypeError: cannot read property close of null",
      ret := Ret.nothing }
  | some k =>
    { state := { closeSocket k s with socket := none }, effects := [Effect.socketClose k],
      thrown := none, ret := Ret.nothing }

/-- The method `client.on(event, listener)`. -/
def client_on (event : String) (listener : Nat) (s : State) : Outcome :=
  match lookupKey event s.listeners with
  | none =>
    { state := { s with listeners := setProp event [listener] s.listeners }, effects := [],
      thrown := none, ret := Ret.unsubscribe event listener }
  | some ls =>
    { state := { s with listeners := setProp event (ls ++ [listener]) s.listeners },
      effects := [], thrown := none, ret := Ret.unsubscribe event listener }

/-- The function returned by `client.on(event, listener)`:
`listeners[event] = listeners[event].filter(l => l === listener)`. -/
def unsubscribe (event : String) (listener : Nat) (s : State) : Outcome :=
  match lookupKey event s.listeners with
  | none =>
    { state := s, effects := [], thrown := some "TypeError: cannot read property filter",
      ret := Ret.nothing }
  | some ls =>
    let kept := ls.filter (fun l => decide (l = listener))
    { state := { s with listeners := setProp event kept s.listeners },
      effects := [], thrown := none, ret := Ret.nothing }

/-- The method `client.call(scope, api, ...args)`. -/
def client_call (scope api : String) (args : List Value) (s : State) : Outcome :=
  let pkt := Packet.call scope api args
  if !isConnected s then
    { state := deferSend pkt s, effects := [], thrown := none, ret := Ret.cancel (some pkt) }
  else
    { state := s, effects := socketSend pkt s, thrown := none, ret := Ret.cancel none }

/-- The function a `client.call` returned: the one made by `deferSend`, or `noop`. -/
def runCancel (pkt : Option Packet) (s : State) : Outcome :=
  match pkt with
  | some p => { state := cancelSend p s, effects := [], thrown := none, ret := Ret.nothing }
  | none => { state := s, effects := [], thrown := none, ret := Ret.nothing }

/-- Whether `scopeManifests[name]` is truthy. -/
def cachedManifest (name : String) (s : State) : Option Value :=
  match lookupKey name s.scopeManifests with
  | some v => if v.truthy then some v else none
  | none => none

/-- The executor of `client.scope(name, manifest)`, run by `new Promise`. -/
def client_scope (name : String) (manifest : Option Manifest) (s : State) : Outcome :=
  let p := s.promises
  let s0 := { s with promises := p + 1 }
  match cachedManifest name s with
  | some v =>
    { state := s0, effects := [Effect.resolve p v], thrown := none, ret := Ret.promise p }
  | none =>
    let scopeSerial := s.scopeSerial + 1
    let entry : ScopeEntry := { deferred := p, scopeId := name, manifest := manifest }
    let s1 := { s0 with scopeSerial := scopeSerial,
                        scopeCalls := setKey scopeSerial entry s.scopeCalls }
    let pkt := Packet.scopeRequest scopeSerial name manifest.isNone
    if !isConnected s1 then
      { state := deferSend pkt s1, effects := [], thrown := none, ret := Ret.promise p }
    else
      { state := s1, effects := socketSend pkt s1, thrown := none, ret := Ret.promise p }

/-- The listener `network.on('online', ...)`, registered when a network was given. -/
def network_online (s : State) : Outcome :=
  if s.hasNetwork && s.socket.isSome then
    { client_reconnect s with ret := Ret.nothing }
  else unchanged s

/-- The listener `network.on('offline', ...)`, registered when a network was given. -/
def network_offline (s : State) : Outcome :=
  if s.hasNetwork then
    let c := closeCurrent s
    { state := c.1, effects := c.2, thrown := none, ret := Ret.nothing }
  else unchanged s

/-! ## Everything that can happen to a session -/

/-- One event of the single-threaded event loop: a call on `client` by the
application, a call of a function `client` returned earlier, an event of a
socket the session created, or a network edge. -/
inductive Action
  | connect (path : String)
  | reconnect
  | close
  | subscribe (event : String) (listener : Nat)
  | unsubscribe (event : String) (listener : Nat)
  | call (scope api : String) (args : List Value)
  | cancel (pkt : Option Packet)
  | rpc (scope api : String) (args : List Value)
  | scope (name : String) (manifest : Option Manifest)
  | invoke (obj : Value) (member : String) (args : List Value)
  | sockOpen (k : Nat)
  | sockMessage (k : Nat) (d : Decoded)
  | sockClose (k : Nat)
  | sockError (k : Nat) (message : Value)
  | online
  | offline
  deriving DecidableEq, Repr

/-- Runs one event. A socket event happens only on a socket that was created;
the socket sets its `readyState` before it calls the handler. -/
def step (a : Action) (s : State) : Outcome :=
  match a with
  | Action.connect path => client_connect path s
  | Action.reconnect => client_reconnect s
  | Action.close => client_close s
  | Action.subscribe event listener => client_on event listener s
  | Action.unsubscribe event listener => unsubscribe event listener s
  | Action.call scope api args => client_call scope api args s
  | Action.cancel pkt => runCancel pkt s
  | Action.rpc scope api args => client_rpc scope api args s
  | Action.scope name manifest => client_scope name manifest s
  | Action.invoke obj member args => invokeMember obj member args s
  | Action.sockOpen k =>
    if k < s.sockets.length then sock_onopen k (setReadyState k ReadyState.opened s)
    else unchanged s
  | Action.sockMessage k d =>
    if k < s.sockets.length then sock_onmessage d s else unchanged s
  | Action.sockClose k =>
    if k < s.sockets.length then sock_onclose (setReadyState k ReadyState.closed s)
    else unchanged s
  | Action.sockError k message =>
    if k < s.sockets.length then sock_onerror message s else unchanged s
  | Action.online => network_online s
  | Action.offline => network_offline s

/-- Runs a sequence of events, one after the other. -/
def run : List Action → State → State
  | [], s => s
  | a :: rest, s => run rest (step a s).state

/-- The calls the session made while running a sequence of events, in order. -/
def trace : List Action → State → List Effect
  | [], _ => []
  | a :: rest, s => (step a s).effects ++ trace rest (step a s).state

/-! ## Vocabulary of the statements -/

/-- The packets handed to `send`, with the socket each was sent on, in order. -/
def sent (effects : List Effect) : List (Nat × Packet) :=
  effects.filterMap (fun e => match e with
    | Effect.send k pkt => some (k, pkt)
    | _ => none)

/-- The promise callbacks called, in order: the promise, whether it was
`resolve` (true) or `reject` (false), and the argument. -/
def settled (effects : List Effect) : List (Nat × Bool × Value) :=
  effects.filterMap (fun e => match e with
    | Effect.resolve p v => some (p, true, v)
    | Effect.reject p v => some (p, false, v)
    | _ => none)

/-- The events by which the application makes a request: `call`, `rpc`, `scope`,
or a member of a capability object. -/
def isRequest : Action → Bool
  | Action.call _ _ _ => true
  | Action.rpc _ _ _ => true
  | Action.scope _ _ => true
  | Action.invoke _ _ _ => true
  | _ => false

/-- The packet a request made in state `s` builds: a `call` its Call packet, an
`rpc` (also through a capability member) the RpcRequest with the next serial, a
`scope` without cached manifest the ScopeRequest with the next scope serial. -/
def packetOf (s : State) : Action → List Packet
  | Action.call scope api args => [Packet.call scope api args]
  | Action.rpc scope api args => [Packet.rpcRequest (s.serial + 1) scope api args]
  | Action.scope name manifest =>
    match cachedManifest name s with
    | some _ => []
    | none => [Packet.scopeRequest (s.scopeSerial + 1) name manifest.isNone]
  | Action.invoke (Value.capability _ scopeId members) name args =>
    if name ∈ members then [Packet.rpcRequest (s.serial + 1) scopeId name args] else []
  | _ => []

/-- The packets a sequence of requests builds, in the order of the requests. -/
def requested : State → List Action → List Packet
  | _, [] => []
  | s, a :: rest => packetOf s a ++ requested (step a s).state rest

/-- A response of the packet vocabulary: the proxy marker `-1` comes with a
list of operation names. -/
def wellFormedResponse (success result : Value) : Bool :=
  if success = Value.num (-1) then
    match result with
    | Value.names _ => true
    | _ => false
  else true

/-- A session in which the scope `chat` has been resolved and cached, and one
rpc is still waiting for its response. -/
def cachedSession : State :=
  run [Action.scope "chat" none,
       Action.sockMessage 0 (Decoded.scopeResponse 1 (Value.bool true) (Value.names ["send"])),
       Action.rpc "chat" "send" [Value.str "hi"]]
    (run [Action.connect "/live"] (initialState "ws://host" false))

/-- A session, still connecting, with two rpcs waiting: serials 1 and 2. -/
def twoPending : State :=
  run [Action.connect "/live", Action.rpc "user" "getProfile" [Value.num 42],
       Action.rpc "user" "getFriends" []]
    (initialState "ws://host" false)

/-- A session with one scope request waiting under serial 1, made with the
manifest `send`, `history`. -/
def scopePending : State :=
  run [Action.connect "/live", Action.scope "chat" (some { apis := ["send", "history"] })]
    (initialState "ws://host" false)

/-- A session with one scope request waiting under serial 1, made without manifest. -/
def scopePendingBare : State :=
  run [Action.connect "/live", Action.scope "chat" none] (initialState "ws://host" false)

/-- Whether event `a`, happening in state `s`, leaves the cache entry of `name`
alone: it is neither a close event nor a successful scope response for a
request that was made for `name`. -/
def keepsManifest (name : String) (s : State) : Action → Bool
  | Action.sockClose _ => false
  | Action.sockMessage _ (Decoded.scopeResponse tracker success _) =>
    match lookupKey tracker s.scopeCalls with
    | some e => !success.truthy || decide (e.scopeId ≠ name)
    | none => true
  | _ => true

/-- Whether every event of a sequence run from `s` leaves the cache entry of `name` alone. -/
def undisturbed (name : String) : State → List Action → Bool
  | _, [] => true
  | s, a :: rest => keepsManifest name s a && undisturbed name (step a s).state rest

/-- A session in which `scope('chat')` was called twice before any response,
and the first of the two requests has been answered. -/
def firstAnswered : State :=
  run [Action.connect "/live", Action.scope "chat" none, Action.scope "chat" none,
       Action.sockMessage 0 (Decoded.scopeResponse 1 (Value.bool true) (Value.names ["send"]))]
    (initialState "ws://host" false)

/-- The events that can touch the counters, the correlation tables or the
manifest cache: requests, incoming messages, close and error. -/
def touchesTables : Action → Bool
  | Action.rpc _ _ _ => true
  | Action.scope _ _ => true
  | Action.invoke _ _ _ => true
  | Action.sockMessage _ _ => true
  | Action.sockClose _ => true
  | Action.sockError _ _ => true
  | _ => false

/-- The events that run `client.rpc`: a call of it, or of a member of a capability object. -/
def issuesRpc : Action → Bool
  | Action.rpc _ _ _ => true
  | Action.invoke obj member _ => hasMember obj member
  | _ => false

/-- The events that make a scope request in state `s`: a `scope` call that
finds no cached manifest. -/
def issuesScope (s : State) : Action → Bool
  | Action.scope name _ => (cachedManifest name s).isNone
  | _ => false

/-- How many times `client.rpc` ran in a sequence of events. -/
def rpcIssued : List Action → Nat
  | [] => 0
  | a :: rest => (if issuesRpc a then 1 else 0) + rpcIssued rest

/-- How many scope requests a sequence of events run from `s` made. -/
def scopeIssued : State → List Action → Nat
  | _, [] => 0
  | s, a :: rest => (if issuesScope s a then 1 else 0) + scopeIssued (step a s).state rest

/-- The state a session created for `host` is in after a sequence of events. -/
def reached (host : String) (network : Bool) (acts : List Action) : State :=
  run acts (initialState host network)

/-- A session, not connected, that queued the same call twice with another
call in between: `pending` holds ping, typing, ping. -/
def threeCalls : State :=
  run [Action.call "chat" "ping" [], Action.call "chat" "typing" [],
       Action.call "chat" "ping" []]
    (initialState "ws://host" false)

/-- A session with two listeners, 1 and 2, registered for `connect`. -/
def twoListeners : State :=
  run [Action.subscribe "connect" 1, Action.subscribe "connect" 2]
    (initialState "ws://host" false)

/-- The sockets made by `new Socket(url)`, with the url of each, in order. -/
def created (effects : List Effect) : List (Nat × String) :=
  effects.filterMap (fun e => match e with
    | Effect.socketNew k url => some (k, url)
    | _ => none)

/-- The sockets on which `close()` was called, in order. -/
def closedSockets (effects : List Effect) : List Nat :=
  effects.filterMap (fun e => match e with
    | Effect.socketClose k => some k
    | _ => none)

/-- The events that assign `socket` or call `close()` on it: `connect`,
`reconnect`, `close` and the two network edges. -/
def isLifecycle : Action → Bool
  | Action.connect _ => true
  | Action.reconnect => true
  | Action.close => true
  | Action.online => true
  | Action.offline => true
  | _ => false

/-- The construction `createClient(props.host)` of the React binding
(packages/react/src/Shocked.js): no store, no socket class, no network. -/
def reactBinding (host : String) : Except String State := createClient host none false

/-- Whether a construction failed. -/
def failed (r : Except String State) : Bool :=
  match r with
  | Except.error _ => true
  | Except.ok _ => false

/-- A session, connected: socket 0 was made by `connect('/live')` and has opened. -/
def liveSession : State :=
  run [Action.connect "/live", Action.sockOpen 0] (initialState "ws://host" true)

/-- The events `connect`, `reconnect`, an rpc made while the new socket is
still connecting, the close event of the superseded socket 0, the open event
of the new socket 1. -/
def supersededClose : List Action :=
  [Action.connect "/live", Action.reconnect, Action.rpc "user" "getProfile" [Value.num 42],
   Action.sockClose 0, Action.sockOpen 1]

/-- The same with a `connect` to another url in place of `reconnect`. -/
def supersededCloseOtherUrl : List Action :=
  [Action.connect "/live", Action.connect "/other",
   Action.rpc "user" "getProfile" [Value.num 42], Action.sockClose 0, Action.sockOpen 1]

/-! ## Theorems -/

theorem sent_map_send (k : Nat) (ps : List Packet) :
    sent (ps.map (Effect.send k)) = ps.map (fun p => (k, p)) := by
  induction ps with
  | nil => rfl
  | cons p r ih => simp [sent, List.filterMap_cons] at ih ⊢; exact ih

theorem sent_fire (event : String) (data : Value) (s : State) :
    sent (fire event data s) = [] := by
  unfold fire
  cases lookupKey event s.listeners with
  | none => rfl
  | some ls =>
    simp only [sent]
    induction ls with
    | nil => rfl
    | cons l r ih => simp [List.filterMap_cons]

theorem settled_fire (event : String) (data : Value) (s : State) :
    settled (fire event data s) = [] := by
  unfold fire
  cases lookupKey event s.listeners with
  | none => rfl
  | some ls =>
    simp only [settled]
    induction ls with
    | nil => rfl
    | cons l r ih => simp [List.filterMap_cons]

theorem sent_append (a b : List Effect) : sent (a ++ b) = sent a ++ sent b := by
  simp [sent, List.filterMap_append]

theorem settled_append (a b : List Effect) : settled (a ++ b) = settled a ++ settled b := by
  simp [settled, List.filterMap_append]

/-- The statements `serial += 1; rpcs[serial] = [resolve, reject, scope]` of `client.rpc`. -/
theorem client_rpc_state (scope api : String) (args : List Value) (s : State) :
    (client_rpc scope api args s).state.serial = s.serial + 1 ∧
    (client_rpc scope api args s).state.rpcs
      = setKey (s.serial + 1) { deferred := s.promises, scopeId := scope } s.rpcs ∧
    (client_rpc scope api args s).state.scopeSerial = s.scopeSerial ∧
    (client_rpc scope api args s).state.scopeCalls = s.scopeCalls ∧
    (client_rpc scope api args s).state.scopeManifests = s.scopeManifests ∧
    (client_rpc scope api args s).state.socket = s.socket ∧
    (client_rpc scope api args s).state.sockets = s.sockets ∧
    (client_rpc scope api args s).thrown = none := by
  unfold client_rpc
  simp only []
  split <;> simp [deferSend]

theorem client_rpc_disconnected (scope api : String) (args : List Value) (s : State)
    (hdis : isConnected s = false) :
    (client_rpc scope api args s).state.pending
      = s.pending ++ [Packet.rpcRequest (s.serial + 1) scope api args] ∧
    (client_rpc scope api args s).effects = [] := by
  simp only [isConnected] at hdis
  simp [client_rpc, isConnected, hdis, deferSend]

theorem client_rpc_connected (scope api : String) (args : List Value) (s : State)
    (hcon : isConnected s = true) :
    (client_rpc scope api args s).state.pending = s.pending ∧
    (client_rpc scope api args s).effects
      = socketSend (Packet.rpcRequest (s.serial + 1) scope api args) s := by
  simp only [isConnected] at hcon
  simp [client_rpc, isConnected, hcon, socketSend]

/-- A request made while not connected appends its packet to `pending`, sends
nothing, and leaves the session not connected. -/
theorem request_while_disconnected (s : State) (a : Action) (hreq : isRequest a = true)
    (hdis : isConnected s = false) :
    (step a s).state.pending = s.pending ++ packetOf s a ∧
    sent (step a s).effects = [] ∧
    isConnected (step a s).state = false := by
  cases a <;> simp [isRequest] at hreq
  case call scope api args =>
    simp only [isConnected] at hdis
    simp [step, client_call, isConnected, hdis, deferSend, packetOf, sent]
  case rpc scope api args =>
    obtain ⟨h1, h2⟩ := client_rpc_disconnected scope api args s hdis
    obtain ⟨-, -, -, -, -, h3, h4, -⟩ := client_rpc_state scope api args s
    simp only [isConnected] at hdis
    simp [step, h1, h2, packetOf, isConnected, h3, h4, hdis, sent]
  case scope name manifest =>
    simp only [isConnected] at hdis
    simp only [step, client_scope, packetOf]
    cases hc : cachedManifest name s with
    | some v => simp [isConnected, hdis, sent]
    | none => simp [isConnected, hdis, sent, deferSend]
  case invoke obj name args =>
    cases obj
    case capability ref scopeId members =>
      by_cases hm : name ∈ members
      · obtain ⟨h1, h2⟩ := client_rpc_disconnected scopeId name args s hdis
        obtain ⟨-, -, -, -, -, h3, h4, -⟩ := client_rpc_state scopeId name args s
        simp only [isConnected] at hdis
        simp [step, invokeMember, hm, h1, h2, packetOf, isConnected, h3, h4, hdis, sent]
      · simp [step, invokeMember, hm, packetOf, sent, hdis]
    all_goals simp [step, invokeMember, packetOf, sent, hdis]

/-- Requests made while not connected pile up in `pending` in the order made. -/
theorem requests_while_disconnected (ops : List Action) (s : State)
    (hreq : ∀ a ∈ ops, isRequest a = true) (hdis : isConnected s = false) :
    (run ops s).pending = s.pending ++ requested s ops ∧
    sent (trace ops s) = [] ∧
    isConnected (run ops s) = false := by
  induction ops generalizing s with
  | nil => simp [run, requested, trace, sent, hdis]
  | cons a rest ih =>
    have ha : isRequest a = true := hreq a (List.mem_cons_self a rest)
    obtain ⟨h1, h2, h3⟩ := request_while_disconnected s a ha hdis
    obtain ⟨i1, i2, i3⟩ := ih (step a s).state (fun b hb => hreq b (List.mem_cons_of_mem a hb)) h3
    refine ⟨?_, ?_, ?_⟩
    · simp only [run, requested]
      rw [i1, h1, List.append_assoc]
    · simp only [trace]
      rw [sent_append, h2, i2]
      rfl
    · simpa only [run] using i3

/-- What `sock.onopen` of socket `k` sends: the whole of `pending`, on `k`, in order. -/
theorem sock_onopen_sent (k : Nat) (s : State) :
    sent (sock_onopen k s).effects = s.pending.map (fun p => (k, p)) := by
  simp only [sock_onopen]
  rw [sent_append, sent_map_send, sent_fire, List.append_nil]

/-- C1: requests (call, rpc, scope, capability member) made one after the other
while the session is not connected, starting from an empty queue, send nothing;
the queue then holds exactly the packets they built, in the order of the
requests, and the on-open reaction of any transport `k` sends exactly these
packets on `k`, each once and in that order, and leaves the queue empty. -/
theorem C1_flush_on_open (s : State) (ops : List Action) (k : Nat)
    (hreq : ∀ a ∈ ops, isRequest a = true) (hdis : isConnected s = false)
    (hempty : s.pending = []) :
    sent (trace ops s) = [] ∧
    (run ops s).pending = requested s ops ∧
    sent (sock_onopen k (run ops s)).effects = (requested s ops).map (fun p => (k, p)) ∧
    (sock_onopen k (run ops s)).state.pending = [] ∧
    (sock_onopen k (run ops s)).thrown = none := by
  obtain ⟨h1, h2, -⟩ := requests_while_disconnected ops s hreq hdis
  rw [hempty, List.nil_append] at h1
  refine ⟨h2, h1, ?_, rfl, rfl⟩
  rw [sock_onopen_sent, h1]

/-- Three requests queued on a fresh session are sent in order when socket 0 opens. -/
theorem C1_flush_on_open_witness :
    sent (sock_onopen 0 (run [Action.rpc "user" "getProfile" [Value.num 42],
        Action.call "chat" "ping" [], Action.scope "chat" none]
        (initialState "ws://host" false))).effects
      = [(0, Packet.rpcRequest 1 "user" "getProfile" [Value.num 42]),
         (0, Packet.call "chat" "ping" []),
         (0, Packet.scopeRequest 1 "chat" true)] :=
  (C1_flush_on_open (initialState "ws://host" false)
    [Action.rpc "user" "getProfile" [Value.num 42], Action.call "chat" "ping" [],
      Action.scope "chat" none] 0
    (by simp [isRequest]) (by decide) (by rfl)).2.2.1

/-! ### Objects used as maps -/

theorem deleteKey_cons_eq {κ α : Type} [DecidableEq κ] (k : κ) (e : κ × α) (t : List (κ × α))
    (h : e.1 = k) : deleteKey k (e :: t) = deleteKey k t := by
  simp [deleteKey, List.filter_cons, h]

theorem deleteKey_cons_ne {κ α : Type} [DecidableEq κ] (k : κ) (e : κ × α) (t : List (κ × α))
    (h : ¬ e.1 = k) : deleteKey k (e :: t) = e :: deleteKey k t := by
  simp [deleteKey, List.filter_cons, h]

theorem lookupKey_deleteKey_self {κ α : Type} [DecidableEq κ] (k : κ) (t : List (κ × α)) :
    lookupKey k (deleteKey k t) = none := by
  induction t with
  | nil => rfl
  | cons e r ih =>
    by_cases h : e.1 = k
    · rw [deleteKey_cons_eq k e r h]; exact ih
    · rw [deleteKey_cons_ne k e r h]
      simp only [lookupKey, h, ite_false]
      exact ih

theorem lookupKey_deleteKey_ne {κ α : Type} [DecidableEq κ] (k j : κ) (t : List (κ × α))
    (hne : j ≠ k) : lookupKey j (deleteKey k t) = lookupKey j t := by
  induction t with
  | nil => rfl
  | cons e r ih =>
    by_cases h : e.1 = k
    · have hj : ¬ e.1 = j := fun hj => hne (hj.symm.trans h)
      rw [deleteKey_cons_eq k e r h, ih]
      simp only [lookupKey, hj, ite_false]
    · rw [deleteKey_cons_ne k e r h]
      simp only [lookupKey]
      rw [ih]

theorem lookupKey_setKey_self {α : Type} (k : Nat) (v : α) (t : List (Nat × α)) :
    lookupKey k (setKey k v t) = some v := by
  induction t with
  | nil => simp [setKey, lookupKey]
  | cons e r ih =>
    obtain ⟨k', v'⟩ := e
    simp only [setKey]
    split
    · simp [lookupKey]
    · split
      · simp [lookupKey]
      · rename_i h1 h2
        have : ¬ k' = k := fun h => h2 h.symm
        simp [lookupKey, this, ih]

theorem lookupKey_setKey_ne {α : Type} (k j : Nat) (v : α) (t : List (Nat × α)) (hne : j ≠ k) :
    lookupKey j (setKey k v t) = lookupKey j t := by
  induction t with
  | nil => simp [setKey, lookupKey, hne.symm]
  | cons e r ih =>
    obtain ⟨k', v'⟩ := e
    simp only [setKey]
    split
    · simp [lookupKey, hne.symm]
    · split
      · rename_i h1 h2
        subst h2
        simp [lookupKey, hne.symm]
      · by_cases hj : k' = j
        · simp [lookupKey, hj]
        · simp [lookupKey, hj, ih]

theorem lookupKey_setProp_self {α : Type} (k : String) (v : α) (t : List (String × α)) :
    lookupKey k (setProp k v t) = some v := by
  induction t with
  | nil => simp [setProp, lookupKey]
  | cons e r ih =>
    obtain ⟨k', v'⟩ := e
    simp only [setProp]
    split
    · simp [lookupKey]
    · rename_i h
      simp [lookupKey, h, ih]

theorem lookupKey_setProp_ne {α : Type} (k j : String) (v : α) (t : List (String × α))
    (hne : j ≠ k) : lookupKey j (setProp k v t) = lookupKey j t := by
  induction t with
  | nil => simp [setProp, lookupKey, hne.symm]
  | cons e r ih =>
    obtain ⟨k', v'⟩ := e
    simp only [setProp]
    split
    · rename_i h
      subst h
      simp [lookupKey, hne.symm]
    · by_cases hj : k' = j
      · simp [lookupKey, hj]
      · simp [lookupKey, hj, ih]

theorem mem_keysOf_setKey {α : Type} (k x : Nat) (v : α) (t : List (Nat × α))
    (hx : x ∈ keysOf (setKey k v t)) : x = k ∨ x ∈ keysOf t := by
  induction t with
  | nil => simpa [setKey, keysOf] using hx
  | cons e r ih =>
    obtain ⟨k', v'⟩ := e
    simp only [setKey] at hx
    split at hx
    · simpa [keysOf] using hx
    · split at hx
      · rename_i h1 h2
        simp only [keysOf, List.map_cons, List.mem_cons] at hx ⊢
        rcases hx with h | h
        · exact Or.inl h
        · exact Or.inr (Or.inr h)
      · simp only [keysOf, List.map_cons, List.mem_cons] at hx ih ⊢
        rcases hx with h | h
        · exact Or.inr (Or.inl h)
        · rcases ih h with h' | h'
          · exact Or.inl h'
          · exact Or.inr (Or.inr h')

theorem mem_keysOf_deleteKey {κ α : Type} [DecidableEq κ] (k x : κ) (t : List (κ × α))
    (hx : x ∈ keysOf (deleteKey k t)) : x ∈ keysOf t := by
  simp only [keysOf, deleteKey, List.mem_map, List.mem_filter] at hx ⊢
  obtain ⟨e, ⟨he, -⟩, rfl⟩ := hx
  exact ⟨e, he, rfl⟩

theorem lookupKey_eq_none_of_not_mem {κ α : Type} [DecidableEq κ] (k : κ) (t : List (κ × α))
    (h : k ∉ keysOf t) : lookupKey k t = none := by
  induction t with
  | nil => rfl
  | cons e r ih =>
    simp only [keysOf, List.map_cons, List.mem_cons, not_or] at h
    have h1 : ¬ e.1 = k := fun he => h.1 he.symm
    simp only [lookupKey, h1, ite_false]
    exact ih h.2

/-! ### Responses for unknown serials -/

/-- C2 as stated fails: on a fresh session no serial is live, and a response
for serial 7 makes both `onRpcResponse` and `onScopeResponse` raise. -/
theorem C2_unknown_serial_raises :
    lookupKey 7 (initialState "ws://host" false).rpcs = none ∧
    lookupKey 7 (initialState "ws://host" false).scopeCalls = none ∧
    (onRpcResponse 7 (Value.bool true) (Value.str "late")
      (initialState "ws://host" false)).thrown ≠ none ∧
    (onScopeResponse 7 (Value.bool true) (Value.names ["send"])
      (initialState "ws://host" false)).thrown ≠ none := by
  refine ⟨rfl, rfl, ?_, ?_⟩ <;> simp [onRpcResponse, onScopeResponse, initialState, lookupKey]

/-- C2, amended: for every session state and every serial without a live entry
in the corresponding table, `onRpcResponse` and `onScopeResponse` raise a
TypeError (destructuring `undefined`), call no promise callback and nothing
else, and leave the whole state (tables, queue, cache, counters) unchanged. -/
theorem C2_unknown_serial (s : State) (serial : Nat) (success result : Value) :
    (lookupKey serial s.rpcs = none →
      onRpcResponse serial success result s =
        { state := s, effects := [], thrown := some "TypeError: undefined is not iterable",
          ret := Ret.nothing }) ∧
    (lookupKey serial s.scopeCalls = none →
      onScopeResponse serial success result s =
        { state := s, effects := [], thrown := some "TypeError: undefined is not iterable",
          ret := Ret.nothing }) := by
  constructor
  · intro h
    simp [onRpcResponse, h]
  · intro h
    simp [onScopeResponse, h]

/-- In `cachedSession` serial 1 is live for rpcs and serial 2 is not: the
response for 2 raises and changes nothing. -/
theorem C2_unknown_serial_witness :
    onRpcResponse 2 (Value.bool true) (Value.str "late") cachedSession =
      { state := cachedSession, effects := [],
        thrown := some "TypeError: undefined is not iterable", ret := Ret.nothing } :=
  (C2_unknown_serial cachedSession 2 (Value.bool true) (Value.str "late")).1 (by decide)

/-! ### Close and error -/

theorem settled_map_reject (v : Value) (ps : List Nat) :
    settled (ps.map (fun p => Effect.reject p v)) = ps.map (fun p => (p, false, v)) := by
  induction ps with
  | nil => rfl
  | cons p r ih => simp [settled, List.filterMap_cons] at ih ⊢; exact ih

theorem sent_map_reject (v : Value) (ps : List Nat) :
    sent (ps.map (fun p => Effect.reject p v)) = [] := by
  induction ps with
  | nil => rfl
  | cons p r ih => simp [sent, List.filterMap_cons]

/-- C3: after `sock.onclose`, from every state, both correlation tables, the
pending queue and the manifest cache are empty, nothing was sent, and the
promise callbacks called are exactly one `reject` with the failure
`Connection terminated` for each entry of `rpcs` followed by one for each entry
of `scopeCalls`: every entry is rejected once and none is resolved. -/
theorem C3_close_rejects_all (s : State) :
    (sock_onclose s).state.rpcs = [] ∧
    (sock_onclose s).state.scopeCalls = [] ∧
    (sock_onclose s).state.pending = [] ∧
    (sock_onclose s).state.scopeManifests = [] ∧
    sent (sock_onclose s).effects = [] ∧
    settled (sock_onclose s).effects =
      (valuesOf s.rpcs).map (fun e => (e.deferred, false, Value.error "Connection terminated"))
      ++ (valuesOf s.scopeCalls).map
          (fun e => (e.deferred, false, Value.error "Connection terminated")) ∧
    (settled (sock_onclose s).effects).length = s.rpcs.length + s.scopeCalls.length ∧
    (∀ x ∈ settled (sock_onclose s).effects, x.2.1 = false) ∧
    (sock_onclose s).thrown = none := by
  have hs : settled (sock_onclose s).effects =
      (valuesOf s.rpcs).map (fun e => (e.deferred, false, Value.error "Connection terminated"))
      ++ (valuesOf s.scopeCalls).map
          (fun e => (e.deferred, false, Value.error "Connection terminated")) := by
    simp only [sock_onclose]
    rw [settled_append, settled_fire, settled_map_reject, List.append_nil]
    simp [rejections, terminated, List.map_append, List.map_map, Function.comp_def]
  refine ⟨rfl, rfl, rfl, rfl, ?_, hs, ?_, ?_, rfl⟩
  · simp only [sock_onclose]
    rw [sent_append, sent_fire, sent_map_reject]
    rfl
  · rw [hs]
    simp [valuesOf]
  · rw [hs]
    intro x hx
    simp only [List.mem_append, List.mem_map] at hx
    rcases hx with ⟨e, -, rfl⟩ | ⟨e, -, rfl⟩ <;> rfl

/-- C4 fails on the code: `sock.onerror` empties both tables and the queue and
rejects every entry with the reported message, exactly as `sock.onclose` does
with the termination failure, but it never assigns `scopeManifests`, so the
cache keeps its content; in `cachedSession` the manifest of `chat` survives an
error and does not survive a close. -/
theorem C4_error_keeps_cache :
    (∀ (s : State) (message : Value),
      (sock_onerror message s).state
        = { (sock_onclose s).state with scopeManifests := s.scopeManifests } ∧
      settled (sock_onerror message s).effects
        = (settled (sock_onclose s).effects).map (fun x => (x.1, x.2.1, message))) ∧
    (sock_onerror (Value.str "boom") cachedSession).state.scopeManifests
      = [("chat", Value.capability 0 "chat" ["send"])] ∧
    (sock_onclose cachedSession).state.scopeManifests = [] ∧
    (sock_onerror (Value.str "boom") cachedSession).state
      ≠ (sock_onclose cachedSession).state := by
  refine ⟨?_, ?_, rfl, ?_⟩
  · intro s message
    refine ⟨rfl, ?_⟩
    simp only [sock_onerror, sock_onclose]
    rw [settled_append, settled_fire, settled_map_reject, settled_append, settled_fire,
      settled_map_reject]
    simp [List.map_map, Function.comp_def]
  · decide
  · decide

/-! ### Responses for live serials -/

/-- What `onRpcResponse` does for a live serial and a response of the packet vocabulary. -/
theorem onRpcResponse_live (s : State) (serial : Nat) (e : RpcEntry) (success result : Value)
    (hlive : lookupKey serial s.rpcs = some e)
    (hwf : wellFormedResponse success result = true) :
    (success.truthy = false →
      (onRpcResponse serial success result s).effects = [Effect.reject e.deferred result]) ∧
    (success.truthy = true → success ≠ Value.num (-1) →
      (onRpcResponse serial success result s).effects = [Effect.resolve e.deferred result]) ∧
    (∀ l, success = Value.num (-1) → result = Value.names l →
      (onRpcResponse serial success result s).effects
        = [Effect.resolve e.deferred (Value.capability s.objects e.scopeId l)]) ∧
    (∃ kind v, settled (onRpcResponse serial success result s).effects = [(e.deferred, kind, v)]
      ∧ (onRpcResponse serial success result s).effects.length = 1) ∧
    (onRpcResponse serial success result s).thrown = none ∧
    (onRpcResponse serial success result s).state.rpcs = deleteKey serial s.rpcs ∧
    (onRpcResponse serial success result s).state.scopeCalls = s.scopeCalls ∧
    (onRpcResponse serial success result s).state.pending = s.pending ∧
    (onRpcResponse serial success result s).state.scopeManifests = s.scopeManifests := by
  by_cases ht : success.truthy = true
  · by_cases hp : success = Value.num (-1)
    · subst hp
      cases result <;> simp [wellFormedResponse] at hwf
      rename_i l
      simp [onRpcResponse, hlive, Value.truthy, buildCapability, settled]
    · simp [onRpcResponse, hlive, ht, hp, settled]
  · have hf : success.truthy = false := by simpa using ht
    have hp : success ≠ Value.num (-1) := by
      intro h
      rw [h] at hf
      simp [Value.truthy] at hf
    simp [onRpcResponse, hlive, hf, hp, settled]

/-- C5 as stated fails: in `twoPending` serial 1 is live; a response with the
proxy marker `-1` whose result is not a list raises at `result.reduce` after the
entry was removed, so neither `resolve` nor `reject` of the entry is called. -/
theorem C5_proxy_without_list :
    lookupKey 1 twoPending.rpcs = some { deferred := 0, scopeId := "user" } ∧
    (onRpcResponse 1 (Value.num (-1)) Value.undefined twoPending).effects = [] ∧
    (onRpcResponse 1 (Value.num (-1)) Value.undefined twoPending).thrown ≠ none ∧
    lookupKey 1 (onRpcResponse 1 (Value.num (-1)) Value.undefined twoPending).state.rpcs
      = none := by
  decide

/-- C5, amended: for every state and every serial with a live entry `e` in `rpcs`, a
response of the packet vocabulary (the proxy marker comes with a name list)
calls exactly one callback, of the promise of `e`, exactly once: `reject` with
the result verbatim on failure, `resolve` with the result verbatim on ordinary
success (and `resolve` with the built capability object on proxy success);
it raises nothing, removes the entry of that serial and leaves every other
serial, the scope table, the queue and the cache as they were. Consequently a
response for another live serial, arriving afterwards, still finds its own
entry and settles that one; a response that is not a proxy makes the same call
in either order. -/
theorem C5_response_settles_its_entry (s : State) (serial : Nat) (e : RpcEntry)
    (success result : Value)
    (hlive : lookupKey serial s.rpcs = some e)
    (hwf : wellFormedResponse success result = true) :
    (success.truthy = false →
      (onRpcResponse serial success result s).effects = [Effect.reject e.deferred result]) ∧
    (success.truthy = true → success ≠ Value.num (-1) →
      (onRpcResponse serial success result s).effects = [Effect.resolve e.deferred result]) ∧
    (∃ kind v, settled (onRpcResponse serial success result s).effects = [(e.deferred, kind, v)]
      ∧ (onRpcResponse serial success result s).effects.length = 1) ∧
    (onRpcResponse serial success result s).thrown = none ∧
    lookupKey serial (onRpcResponse serial success result s).state.rpcs = none ∧
    (∀ j, j ≠ serial →
      lookupKey j (onRpcResponse serial success result s).state.rpcs = lookupKey j s.rpcs) ∧
    (onRpcResponse serial success result s).state.scopeCalls = s.scopeCalls ∧
    (∀ (j : Nat) (e2 : RpcEntry) (success2 result2 : Value), j ≠ serial →
      lookupKey j s.rpcs = some e2 → wellFormedResponse success2 result2 = true →
      (∃ kind v,
        settled (onRpcResponse j success2 result2
          (onRpcResponse serial success result s).state).effects = [(e2.deferred, kind, v)]) ∧
      (success2 ≠ Value.num (-1) →
        (onRpcResponse j success2 result2 (onRpcResponse serial success result s).state).effects
          = (onRpcResponse j success2 result2 s).effects)) := by
  obtain ⟨h1, h2, -, h4, h5, h6, h7, -, -⟩ :=
    onRpcResponse_live s serial e success result hlive hwf
  have hother : ∀ j, j ≠ serial →
      lookupKey j (onRpcResponse serial success result s).state.rpcs = lookupKey j s.rpcs := by
    intro j hj
    rw [h6]
    exact lookupKey_deleteKey_ne serial j s.rpcs hj
  refine ⟨h1, h2, h4, h5, ?_, hother, h7, ?_⟩
  · rw [h6]
    exact lookupKey_deleteKey_self serial s.rpcs
  · intro j e2 success2 result2 hj hlive2 hwf2
    have hlive2' := (hother j hj).trans hlive2
    obtain ⟨a1, a2, -, ⟨kind, v, a4, -⟩, -⟩ :=
      onRpcResponse_live (onRpcResponse serial success result s).state j e2 success2 result2
        hlive2' hwf2
    obtain ⟨b1, b2, -⟩ := onRpcResponse_live s j e2 success2 result2 hlive2 hwf2
    refine ⟨⟨kind, v, a4⟩, ?_⟩
    intro hp
    by_cases ht : success2.truthy = true
    · rw [a2 ht hp, b2 ht hp]
    · have hf : success2.truthy = false := by simpa using ht
      rw [a1 hf, b1 hf]

/-- Serial 2 of `twoPending` answered before serial 1: the second caller gets its result. -/
theorem C5_response_settles_its_entry_witness :
    (onRpcResponse 2 (Value.bool true) (Value.str "friends") twoPending).effects
      = [Effect.resolve 1 (Value.str "friends")] :=
  (C5_response_settles_its_entry twoPending 2 { deferred := 1, scopeId := "user" }
    (Value.bool true) (Value.str "friends") (by decide) (by decide)).2.1 (by decide) (by decide)

/-! ### Capability objects -/

/-- A member of a capability object for scope `S` is `client.rpc(S, name, ...args)`:
it takes the next serial, records the entry under it, and sends the RpcRequest
on the current socket when connected, queues it otherwise. -/
theorem capability_forwards (ref : Nat) (S : String) (l : List String) (n : String)
    (args : List Value) (s : State) (hn : n ∈ l) :
    invokeMember (Value.capability ref S l) n args s = client_rpc S n args s ∧
    (invokeMember (Value.capability ref S l) n args s).state.serial = s.serial + 1 ∧
    lookupKey (s.serial + 1) (invokeMember (Value.capability ref S l) n args s).state.rpcs
      = some { deferred := s.promises, scopeId := S } ∧
    (isConnected s = false →
      (invokeMember (Value.capability ref S l) n args s).effects = [] ∧
      (invokeMember (Value.capability ref S l) n args s).state.pending
        = s.pending ++ [Packet.rpcRequest (s.serial + 1) S n args]) ∧
    (∀ k, isConnected s = true → s.socket = some k →
      (invokeMember (Value.capability ref S l) n args s).effects
        = [Effect.send k (Packet.rpcRequest (s.serial + 1) S n args)] ∧
      (invokeMember (Value.capability ref S l) n args s).state.pending = s.pending) := by
  have hinv : invokeMember (Value.capability ref S l) n args s = client_rpc S n args s := by
    simp [invokeMember, hn]
  rw [hinv]
  obtain ⟨h1, h2, -⟩ := client_rpc_state S n args s
  refine ⟨rfl, h1, ?_, ?_, ?_⟩
  · rw [h2]
    exact lookupKey_setKey_self _ _ _
  · intro hdis
    obtain ⟨a, b⟩ := client_rpc_disconnected S n args s hdis
    exact ⟨b, a⟩
  · intro k hcon hk
    obtain ⟨a, b⟩ := client_rpc_connected S n args s hcon
    refine ⟨?_, a⟩
    rw [b]
    simp [socketSend, hk]

/-- C10: for every state, every live entry `e` of `rpcs` (issued against scope
`e.scopeId`) and every proxy response (success `-1`) carrying a list `l` of
names, `onRpcResponse` resolves the promise of `e`, once, with a fresh capability
object whose members are exactly the names of `l`, and removes the entry; calling
member `n` with `args` in any later state is `client.rpc(e.scopeId, n, ...args)`:
it takes the next rpc serial, records the entry, and sends (connected) or
queues (not connected) the RpcRequest for that scope and operation. -/
theorem C10_proxy_response (s : State) (serial : Nat) (e : RpcEntry) (l : List String)
    (hlive : lookupKey serial s.rpcs = some e) :
    (onRpcResponse serial (Value.num (-1)) (Value.names l) s).effects
      = [Effect.resolve e.deferred (Value.capability s.objects e.scopeId l)] ∧
    (onRpcResponse serial (Value.num (-1)) (Value.names l) s).thrown = none ∧
    lookupKey serial (onRpcResponse serial (Value.num (-1)) (Value.names l) s).state.rpcs = none ∧
    (∀ n, hasMember (Value.capability s.objects e.scopeId l) n = true ↔ n ∈ l) ∧
    (∀ (n : String) (args : List Value) (t : State), n ∈ l →
      invokeMember (Value.capability s.objects e.scopeId l) n args t
        = client_rpc e.scopeId n args t ∧
      (invokeMember (Value.capability s.objects e.scopeId l) n args t).state.serial
        = t.serial + 1 ∧
      lookupKey (t.serial + 1)
          (invokeMember (Value.capability s.objects e.scopeId l) n args t).state.rpcs
        = some { deferred := t.promises, scopeId := e.scopeId } ∧
      (isConnected t = false →
        (invokeMember (Value.capability s.objects e.scopeId l) n args t).effects = [] ∧
        (invokeMember (Value.capability s.objects e.scopeId l) n args t).state.pending
          = t.pending ++ [Packet.rpcRequest (t.serial + 1) e.scopeId n args]) ∧
      (∀ k, isConnected t = true → t.socket = some k →
        (invokeMember (Value.capability s.objects e.scopeId l) n args t).effects
          = [Effect.send k (Packet.rpcRequest (t.serial + 1) e.scopeId n args)] ∧
        (invokeMember (Value.capability s.objects e.scopeId l) n args t).state.pending
          = t.pending)) := by
  obtain ⟨-, -, h3, -, h5, h6, -⟩ :=
    onRpcResponse_live s serial e (Value.num (-1)) (Value.names l) hlive (by simp [wellFormedResponse])
  refine ⟨h3 l rfl rfl, h5, ?_, ?_, ?_⟩
  · rw [h6]
    exact lookupKey_deleteKey_self serial s.rpcs
  · intro n
    simp [hasMember]
  · intro n args t hn
    exact capability_forwards s.objects e.scopeId l n args t hn

/-- Serial 1 of `twoPending` answered with the proxy list `add`, `remove`. -/
theorem C10_proxy_response_witness :
    (onRpcResponse 1 (Value.num (-1)) (Value.names ["add", "remove"]) twoPending).effects
      = [Effect.resolve 0 (Value.capability 0 "user" ["add", "remove"])] :=
  (C10_proxy_response twoPending 1 { deferred := 0, scopeId := "user" } ["add", "remove"]
    (by decide)).1

/-! ### Scope responses -/

/-- What `onScopeResponse` does for a live serial, a truthy `success` and a
capability list `l` that `result || manifest.apis` evaluates to. -/
theorem onScopeResponse_success (s : State) (serial : Nat) (e : ScopeEntry)
    (success result : Value) (l : List String)
    (hlive : lookupKey serial s.scopeCalls = some e) (ht : success.truthy = true)
    (heff : effectiveApis result e.manifest = Except.ok (Value.names l)) :
    (onScopeResponse serial success result s).effects
      = [Effect.resolve e.deferred (Value.capability s.objects e.scopeId l)] ∧
    (onScopeResponse serial success result s).thrown = none ∧
    (onScopeResponse serial success result s).state.scopeCalls = deleteKey serial s.scopeCalls ∧
    (onScopeResponse serial success result s).state.scopeManifests
      = setProp e.scopeId (Value.capability s.objects e.scopeId l) s.scopeManifests ∧
    (onScopeResponse serial success result s).state.rpcs = s.rpcs ∧
    (onScopeResponse serial success result s).state.pending = s.pending := by
  simp [onScopeResponse, hlive, ht, heff, buildCapability]

/-- C9 as stated fails: in `scopePendingBare` the entry of serial 1 has no
manifest; a successful response without result raises after the entry was
removed: the promise is not resolved and nothing is cached. -/
theorem C9_no_list_raises :
    lookupKey 1 scopePendingBare.scopeCalls
      = some { deferred := 0, scopeId := "chat", manifest := none } ∧
    (onScopeResponse 1 (Value.bool true) Value.undefined scopePendingBare).effects = [] ∧
    (onScopeResponse 1 (Value.bool true) Value.undefined scopePendingBare).thrown ≠ none ∧
    lookupKey 1 (onScopeResponse 1 (Value.bool true) Value.undefined
      scopePendingBare).state.scopeCalls = none ∧
    (onScopeResponse 1 (Value.bool true) Value.undefined scopePendingBare).state.scopeManifests
      = [] := by
  decide

/-- C9, amended: for every state, every live entry `e` of `scopeCalls` and every
successful `onScopeResponse` for its serial whose result is a list of names, or
whose result is absent (falsy) while the entry holds a caller manifest, the
promise of `e` is resolved once with a fresh capability object whose members
are exactly the effective list (the result if it is a list, the manifest's
`apis` otherwise); the entry is removed, that same object is stored in the cache
under the scope name, and calling member `n` is `client.rpc(name, n, ...args)`. -/
theorem C9_scope_response (s : State) (serial : Nat) (e : ScopeEntry) (success result : Value)
    (l : List String)
    (hlive : lookupKey serial s.scopeCalls = some e) (ht : success.truthy = true)
    (hlist : result = Value.names l ∨
      (result.truthy = false ∧ ∃ m, e.manifest = some m ∧ m.apis = l)) :
    (onScopeResponse serial success result s).effects
      = [Effect.resolve e.deferred (Value.capability s.objects e.scopeId l)] ∧
    (onScopeResponse serial success result s).thrown = none ∧
    lookupKey serial (onScopeResponse serial success result s).state.scopeCalls = none ∧
    (∀ j, j ≠ serial →
      lookupKey j (onScopeResponse serial success result s).state.scopeCalls
        = lookupKey j s.scopeCalls) ∧
    lookupKey e.scopeId (onScopeResponse serial success result s).state.scopeManifests
      = some (Value.capability s.objects e.scopeId l) ∧
    (∀ n, hasMember (Value.capability s.objects e.scopeId l) n = true ↔ n ∈ l) ∧
    (∀ (n : String) (args : List Value) (t : State), n ∈ l →
      invokeMember (Value.capability s.objects e.scopeId l) n args t
        = client_rpc e.scopeId n args t) := by
  have heff : effectiveApis result e.manifest = Except.ok (Value.names l) := by
    rcases hlist with h | ⟨h, m, hm, hl⟩
    · subst h
      simp [effectiveApis, Value.truthy]
    · simp [effectiveApis, h, hm, hl]
  obtain ⟨h1, h2, h3, h4, -, -⟩ := onScopeResponse_success s serial e success result l hlive ht heff
  refine ⟨h1, h2, ?_, ?_, ?_, ?_, ?_⟩
  · rw [h3]
    exact lookupKey_deleteKey_self serial s.scopeCalls
  · intro j hj
    rw [h3]
    exact lookupKey_deleteKey_ne serial j s.scopeCalls hj
  · rw [h4]
    exact lookupKey_setProp_self _ _ _
  · intro n
    simp [hasMember]
  · intro n args t hn
    exact (capability_forwards s.objects e.scopeId l n args t hn).1

/-- In `scopePending` the entry of serial 1 holds the manifest `send`, `history`;
a successful response without result resolves with the manifest's list. -/
theorem C9_scope_response_witness :
    (onScopeResponse 1 (Value.bool true) Value.undefined scopePending).effects
      = [Effect.resolve 0 (Value.capability 0 "chat" ["send", "history"])] :=
  (C9_scope_response scopePending 1
    { deferred := 0, scopeId := "chat", manifest := some { apis := ["send", "history"] } }
    (Value.bool true) Value.undefined ["send", "history"] (by decide) (by decide)
    (Or.inr ⟨by decide, { apis := ["send", "history"] }, rfl, rfl⟩)).1

/-! ### Scope requests -/

/-- The statements of `client.scope` when `scopeManifests[name]` is not set. -/
theorem client_scope_miss (name : String) (manifest : Option Manifest) (s : State)
    (hmiss : cachedManifest name s = none) :
    (client_scope name manifest s).state.scopeSerial = s.scopeSerial + 1 ∧
    (client_scope name manifest s).state.scopeCalls
      = setKey (s.scopeSerial + 1)
          { deferred := s.promises, scopeId := name, manifest := manifest } s.scopeCalls ∧
    (client_scope name manifest s).state.scopeManifests = s.scopeManifests ∧
    (client_scope name manifest s).state.promises = s.promises + 1 ∧
    (client_scope name manifest s).state.socket = s.socket ∧
    (client_scope name manifest s).state.sockets = s.sockets ∧
    (isConnected s = false →
      (client_scope name manifest s).effects = [] ∧
      (client_scope name manifest s).state.pending
        = s.pending ++ [Packet.scopeRequest (s.scopeSerial + 1) name manifest.isNone]) ∧
    (∀ k, isConnected s = true → s.socket = some k →
      (client_scope name manifest s).effects
        = [Effect.send k (Packet.scopeRequest (s.scopeSerial + 1) name manifest.isNone)] ∧
      (client_scope name manifest s).state.pending = s.pending) := by
  by_cases hc : isConnected s = true
  · have hc' := hc
    simp only [isConnected] at hc'
    refine ⟨?_, ?_, ?_, ?_, ?_, ?_, ?_, ?_⟩ <;>
      first
      | (intro k _ hk; simp [client_scope, hmiss, isConnected, hc']; simp [socketSend, hk])
      | (intro hd; rw [hc] at hd; exact absurd hd (by decide))
      | simp [client_scope, hmiss, isConnected, hc']
  · have hd : isConnected s = false := by simpa using hc
    have hd' := hd
    simp only [isConnected] at hd'
    refine ⟨?_, ?_, ?_, ?_, ?_, ?_, ?_, ?_⟩ <;>
      first
      | (intro k hk _; rw [hd] at hk; exact absurd hk (by decide))
      | (intro _; simp [client_scope, hmiss, isConnected, hd', deferSend])
      | simp [client_scope, hmiss, isConnected, hd', deferSend]

/-- C8 as stated fails: on a fresh session, which has no manifest for `chat`,
two calls `scope('chat')` in a row leave two entries in `scopeCalls` and two
ScopeRequest packets in `pending`. -/
theorem C8_two_requests :
    cachedManifest "chat" (initialState "ws://host" false) = none ∧
    (run [Action.scope "chat" none, Action.scope "chat" none]
        (initialState "ws://host" false)).scopeCalls
      = [(1, { deferred := 0, scopeId := "chat", manifest := none }),
         (2, { deferred := 1, scopeId := "chat", manifest := none })] ∧
    (run [Action.scope "chat" none, Action.scope "chat" none]
        (initialState "ws://host" false)).pending
      = [Packet.scopeRequest 1 "chat" true, Packet.scopeRequest 2 "chat" true] := by
  decide

/-- C8, amended: when `scope(name)` is called twice in succession with no cached
manifest for `name` and before any scope response, each call makes its own
request: the session holds two entries for `name` in `scopeCalls`, under the
next two scope serials, and two ScopeRequest packets were sent (connected) or
queued (not connected), in that order. -/
theorem C8_scope_twice (s : State) (name : String) (m1 m2 : Option Manifest)
    (hmiss : cachedManifest name s = none) :
    (client_scope name m2 (client_scope name m1 s).state).state.scopeSerial
      = s.scopeSerial + 2 ∧
    lookupKey (s.scopeSerial + 1) (client_scope name m2 (client_scope name m1 s).state).state.scopeCalls
      = some { deferred := s.promises, scopeId := name, manifest := m1 } ∧
    lookupKey (s.scopeSerial + 2) (client_scope name m2 (client_scope name m1 s).state).state.scopeCalls
      = some { deferred := s.promises + 1, scopeId := name, manifest := m2 } ∧
    (isConnected s = false →
      (client_scope name m1 s).effects ++ (client_scope name m2 (client_scope name m1 s).state).effects
        = [] ∧
      (client_scope name m2 (client_scope name m1 s).state).state.pending
        = s.pending ++ [Packet.scopeRequest (s.scopeSerial + 1) name m1.isNone,
                        Packet.scopeRequest (s.scopeSerial + 2) name m2.isNone]) ∧
    (∀ k, isConnected s = true → s.socket = some k →
      (client_scope name m1 s).effects ++ (client_scope name m2 (client_scope name m1 s).state).effects
        = [Effect.send k (Packet.scopeRequest (s.scopeSerial + 1) name m1.isNone),
           Effect.send k (Packet.scopeRequest (s.scopeSerial + 2) name m2.isNone)] ∧
      (client_scope name m2 (client_scope name m1 s).state).state.pending = s.pending) := by
  obtain ⟨a1, a2, a3, a4, a5, a6, a7, a8⟩ := client_scope_miss name m1 s hmiss
  have hmiss2 : cachedManifest name (client_scope name m1 s).state = none := by
    unfold cachedManifest at hmiss ⊢
    rw [a3]
    exact hmiss
  have hconn : isConnected (client_scope name m1 s).state = isConnected s := by
    simp only [isConnected, a5, a6]
  obtain ⟨b1, b2, -, -, -, -, b7, b8⟩ :=
    client_scope_miss name m2 (client_scope name m1 s).state hmiss2
  refine ⟨?_, ?_, ?_, ?_, ?_⟩
  · rw [b1, a1]
  · rw [b2, a1, a2, lookupKey_setKey_ne _ _ _ _ (by omega)]
    exact lookupKey_setKey_self _ _ _
  · rw [b2, a1, a4]
    exact lookupKey_setKey_self _ _ _
  · intro hdis
    obtain ⟨c1, c2⟩ := a7 hdis
    obtain ⟨d1, d2⟩ := b7 (hconn.trans hdis)
    rw [c1, d1, d2, c2, a1]
    simp
  · intro k hcon hk
    obtain ⟨c1, c2⟩ := a8 k hcon hk
    obtain ⟨d1, d2⟩ := b8 k (hconn.trans hcon) (a5.trans hk)
    rw [c1, d1, d2, c2, a1]
    simp

/-- On a fresh session two calls `scope('chat')` queue two requests. -/
theorem C8_scope_twice_witness :
    (client_scope "chat" none
        (client_scope "chat" none (initialState "ws://host" false)).state).state.scopeSerial
      = 0 + 2 :=
  (C8_scope_twice (initialState "ws://host" false) "chat" none none (by decide)).1

/-! ### The manifest cache -/

theorem client_rpc_scopeManifests (scope api : String) (args : List Value) (s : State) :
    (client_rpc scope api args s).state.scopeManifests = s.scopeManifests :=
  (client_rpc_state scope api args s).2.2.2.2.1

/-- Closing the current socket and making a new one touch only the sockets. -/
theorem closeCurrent_frame (s : State) :
    (closeCurrent s).1.serial = s.serial ∧
    (closeCurrent s).1.scopeSerial = s.scopeSerial ∧
    (closeCurrent s).1.rpcs = s.rpcs ∧
    (closeCurrent s).1.scopeCalls = s.scopeCalls ∧
    (closeCurrent s).1.scopeManifests = s.scopeManifests ∧
    (closeCurrent s).1.pending = s.pending := by
  unfold closeCurrent
  split <;> simp [closeSocket]

theorem connection_frame (u : Option String) (s : State) :
    (connection u s).2.1.serial = s.serial ∧
    (connection u s).2.1.scopeSerial = s.scopeSerial ∧
    (connection u s).2.1.rpcs = s.rpcs ∧
    (connection u s).2.1.scopeCalls = s.scopeCalls ∧
    (connection u s).2.1.scopeManifests = s.scopeManifests ∧
    (connection u s).2.1.pending = s.pending := by
  unfold connection
  split <;> simp

theorem client_connect_frame (path : String) (s : State) :
    (client_connect path s).state.serial = s.serial ∧
    (client_connect path s).state.scopeSerial = s.scopeSerial ∧
    (client_connect path s).state.rpcs = s.rpcs ∧
    (client_connect path s).state.scopeCalls = s.scopeCalls ∧
    (client_connect path s).state.scopeManifests = s.scopeManifests ∧
    (client_connect path s).state.pending = s.pending := by
  unfold client_connect
  simp only []
  split
  · simp
  · obtain ⟨a1, a2, a3, a4, a5, a6⟩ := closeCurrent_frame s
    obtain ⟨b1, b2, b3, b4, b5, b6⟩ := connection_frame (some (s.host ++ path)) (closeCurrent s).1
    simp only [b1, b2, b3, b4, b5, b6, a1, a2, a3, a4, a5, a6, and_self]

theorem client_reconnect_frame (s : State) :
    (client_reconnect s).state.serial = s.serial ∧
    (client_reconnect s).state.scopeSerial = s.scopeSerial ∧
    (client_reconnect s).state.rpcs = s.rpcs ∧
    (client_reconnect s).state.scopeCalls = s.scopeCalls ∧
    (client_reconnect s).state.scopeManifests = s.scopeManifests ∧
    (client_reconnect s).state.pending = s.pending := by
  unfold client_reconnect
  split
  · simp
  · obtain ⟨a1, a2, a3, a4, a5, a6⟩ := closeCurrent_frame s
    obtain ⟨b1, b2, b3, b4, b5, b6⟩ := connection_frame (socketUrl s) (closeCurrent s).1
    simp only [b1, b2, b3, b4, b5, b6, a1, a2, a3, a4, a5, a6, and_self]

/-- The events that are not requests, messages, close or error leave the
counters, both tables and the cache as they were. -/
theorem step_frame (a : Action) (s : State) (h : touchesTables a = false) :
    (step a s).state.serial = s.serial ∧
    (step a s).state.scopeSerial = s.scopeSerial ∧
    (step a s).state.rpcs = s.rpcs ∧
    (step a s).state.scopeCalls = s.scopeCalls ∧
    (step a s).state.scopeManifests = s.scopeManifests := by
  cases a <;> simp [touchesTables] at h
  case connect path =>
    obtain ⟨a1, a2, a3, a4, a5, -⟩ := client_connect_frame path s
    exact ⟨a1, a2, a3, a4, a5⟩
  case reconnect =>
    obtain ⟨a1, a2, a3, a4, a5, -⟩ := client_reconnect_frame s
    exact ⟨a1, a2, a3, a4, a5⟩
  case close =>
    simp only [step, client_close]
    split <;> simp [closeSocket]
  case subscribe event listener =>
    simp only [step, client_on]
    split <;> simp
  case unsubscribe event listener =>
    simp only [step, unsubscribe]
    split <;> simp
  case call scope api args =>
    simp only [step, client_call]
    split <;> simp [deferSend]
  case cancel pkt =>
    simp only [step, runCancel]
    split <;> simp [cancelSend]
  case sockOpen k =>
    simp only [step]
    split <;> simp [sock_onopen, setReadyState, unchanged]
  case online =>
    simp only [step, network_online]
    split
    · obtain ⟨a1, a2, a3, a4, a5, -⟩ := client_reconnect_frame s
      exact ⟨a1, a2, a3, a4, a5⟩
    · simp [unchanged]
  case offline =>
    simp only [step, network_offline]
    split
    · obtain ⟨a1, a2, a3, a4, a5, -⟩ := closeCurrent_frame s
      exact ⟨a1, a2, a3, a4, a5⟩
    · simp [unchanged]

theorem onRpcResponse_scopeManifests (tracker : Nat) (success result : Value) (s : State) :
    (onRpcResponse tracker success result s).state.scopeManifests = s.scopeManifests := by
  unfold onRpcResponse
  split
  · rfl
  · simp only []
    split
    · split
      · split <;> simp [buildCapability]
      · rfl
    · rfl

theorem client_scope_scopeManifests (name : String) (manifest : Option Manifest) (s : State) :
    (client_scope name manifest s).state.scopeManifests = s.scopeManifests := by
  unfold client_scope
  simp only []
  split
  · rfl
  · split <;> simp [deferSend]

/-- A scope response that is not a success for a request of `name` leaves the
cache entry of `name` as it was. -/
theorem onScopeResponse_keeps_manifest (name : String) (tracker : Nat) (success result : Value)
    (s : State)
    (h : ∀ e, lookupKey tracker s.scopeCalls = some e →
      success.truthy = false ∨ e.scopeId ≠ name) :
    lookupKey name (onScopeResponse tracker success result s).state.scopeManifests
      = lookupKey name s.scopeManifests := by
  unfold onScopeResponse
  split
  · rfl
  · rename_i e he
    simp only []
    split
    · rfl
    · rename_i ht
      have hne : e.scopeId ≠ name := by
        rcases h e he with h1 | h1
        · simp [h1] at ht
        · exact h1
      split
      · simp only [buildCapability]
        exact lookupKey_setProp_ne _ _ _ _ (Ne.symm hne)
      · rfl
      · rfl

/-- Every event other than a close and a successful scope response for `name`
leaves the cache entry of `name` as it was. -/
theorem step_keeps_manifest (name : String) (s : State) (a : Action)
    (h : keepsManifest name s a = true) :
    lookupKey name (step a s).state.scopeManifests = lookupKey name s.scopeManifests := by
  cases a
  case sockClose k => simp [keepsManifest] at h
  case rpc scope api args => simp only [step, client_rpc_scopeManifests]
  case scope nm manifest => simp only [step, client_scope_scopeManifests]
  case invoke obj member args =>
    simp only [step, invokeMember]
    split
    · split
      · rw [client_rpc_scopeManifests]
      · rfl
    · rfl
  case sockError k message =>
    simp only [step]
    split <;> simp [sock_onerror, unchanged]
  case sockMessage k d =>
    simp only [step]
    split
    · cases d
      case event nm data => rfl
      case action payload => rfl
      case rpcResponse tracker success result =>
        simp only [sock_onmessage, onRpcResponse_scopeManifests]
      case scopeResponse tracker success result =>
        simp only [sock_onmessage]
        apply onScopeResponse_keeps_manifest
        intro e he
        simp only [keepsManifest, he, Bool.or_eq_true, Bool.not_eq_true', decide_eq_true_eq] at h
        exact h
    · rfl
  all_goals exact congrArg (lookupKey name) (step_frame _ s (by rfl)).2.2.2.2

theorem run_keeps_manifest (name : String) (acts : List Action) (s : State)
    (h : undisturbed name s acts = true) :
    lookupKey name (run acts s).scopeManifests = lookupKey name s.scopeManifests := by
  induction acts generalizing s with
  | nil => rfl
  | cons a rest ih =>
    simp only [undisturbed, Bool.and_eq_true] at h
    simp only [run]
    rw [ih (step a s).state h.2, step_keeps_manifest name s a h.1]

/-- The cache-first path of `client.scope`: with a truthy value cached under
`name`, the new promise is resolved with that value and nothing else changes. -/
theorem client_scope_hit (name : String) (manifest : Option Manifest) (s : State) (v : Value)
    (hv : lookupKey name s.scopeManifests = some v) (ht : v.truthy = true) :
    client_scope name manifest s =
      { state := { s with promises := s.promises + 1 },
        effects := [Effect.resolve s.promises v], thrown := none, ret := Ret.promise s.promises } := by
  simp [client_scope, cachedManifest, hv, ht]

/-- What a scope response that resolved the promise of its entry with `v` has done. -/
theorem onScopeResponse_resolved (s : State) (serial : Nat) (e : ScopeEntry)
    (success result v : Value)
    (hlive : lookupKey serial s.scopeCalls = some e)
    (hres : (onScopeResponse serial success result s).effects = [Effect.resolve e.deferred v]) :
    v.truthy = true ∧
    lookupKey e.scopeId (onScopeResponse serial success result s).state.scopeManifests = some v := by
  cases ht : success.truthy
  · simp [onScopeResponse, hlive, ht] at hres
  · cases heff : effectiveApis result e.manifest with
    | error msg => simp [onScopeResponse, hlive, ht, heff] at hres
    | ok val =>
      cases val
      case names l =>
        obtain ⟨h1, -, -, h4, -, -⟩ :=
          onScopeResponse_success s serial e success result l hlive ht heff
        rw [h1] at hres
        simp only [List.cons.injEq, Effect.resolve.injEq, true_and, and_true] at hres
        subst hres
        refine ⟨rfl, ?_⟩
        rw [h4]
        exact lookupKey_setProp_self _ _ _
      all_goals simp [onScopeResponse, hlive, ht, heff] at hres

/-- C7 as stated fails: in `firstAnswered` the first of two requests for `chat`
was resolved with object 0, which `scope('chat')` now resolves with; after the
second request is answered too (no close in between) `scope('chat')` resolves
with object 1, another object than the first request resolved with. -/
theorem C7_second_response_replaces :
    (client_scope "chat" none firstAnswered).effects
      = [Effect.resolve 2 (Value.capability 0 "chat" ["send"])] ∧
    (client_scope "chat" none
      (run [Action.sockMessage 0
              (Decoded.scopeResponse 2 (Value.bool true) (Value.names ["send"]))]
        firstAnswered)).effects
      = [Effect.resolve 2 (Value.capability 1 "chat" ["send"])] ∧
    Value.capability 1 "chat" ["send"] ≠ Value.capability 0 "chat" ["send"] := by
  decide

/-- C7, amended: after a scope response has resolved the request of a live entry
`e` with the object `v`, and as long as no close event and no further successful
scope response for the same name has occurred since, every call
`scope(e.scopeId)` resolves its promise with that very `v`, which is what the
cache holds under the name; the call sends nothing and changes nothing but the
promise it creates: no packet queued, no scope serial taken, no entry added. -/
theorem C7_cached_scope (s : State) (serial : Nat) (e : ScopeEntry) (success result v : Value)
    (acts : List Action) (manifest : Option Manifest)
    (hlive : lookupKey serial s.scopeCalls = some e)
    (hres : (onScopeResponse serial success result s).effects = [Effect.resolve e.deferred v])
    (hund : undisturbed e.scopeId (onScopeResponse serial success result s).state acts = true) :
    lookupKey e.scopeId (run acts (onScopeResponse serial success result s).state).scopeManifests
      = some v ∧
    client_scope e.scopeId manifest (run acts (onScopeResponse serial success result s).state) =
      { state := { run acts (onScopeResponse serial success result s).state with
                   promises := (run acts (onScopeResponse serial success result s).state).promises + 1 },
        effects := [Effect.resolve
          (run acts (onScopeResponse serial success result s).state).promises v],
        thrown := none,
        ret := Ret.promise (run acts (onScopeResponse serial success result s).state).promises } := by
  obtain ⟨hv, hc⟩ := onScopeResponse_resolved s serial e success result v hlive hres
  have hkeep := run_keeps_manifest e.scopeId acts _ hund
  rw [hc] at hkeep
  exact ⟨hkeep, client_scope_hit e.scopeId manifest _ v hkeep hv⟩

/-- In `scopePending` the request of serial 1 is answered; after an rpc, its
response and a socket error, `scope('chat')` still resolves with object 0. -/
theorem C7_cached_scope_witness :
    lookupKey "chat"
      (run [Action.rpc "chat" "send" [], Action.sockMessage 0
              (Decoded.rpcResponse 1 (Value.bool true) Value.null),
            Action.sockError 0 (Value.str "boom")]
        (onScopeResponse 1 (Value.bool true) (Value.names ["send"]) scopePending).state).scopeManifests
      = some (Value.capability 0 "chat" ["send"]) :=
  (C7_cached_scope scopePending 1
    { deferred := 0, scopeId := "chat", manifest := some { apis := ["send", "history"] } }
    (Value.bool true) (Value.names ["send"]) (Value.capability 0 "chat" ["send"])
    [Action.rpc "chat" "send" [], Action.sockMessage 0
        (Decoded.rpcResponse 1 (Value.bool true) Value.null),
      Action.sockError 0 (Value.str "boom")]
    none (by decide) (by decide) (by decide)).1

/-! ### Serial counters -/

theorem onRpcResponse_frame (tracker : Nat) (success result : Value) (s : State) :
    (onRpcResponse tracker success result s).state.serial = s.serial ∧
    (onRpcResponse tracker success result s).state.scopeSerial = s.scopeSerial ∧
    (onRpcResponse tracker success result s).state.scopeCalls = s.scopeCalls ∧
    ((onRpcResponse tracker success result s).state.rpcs = s.rpcs ∨
     (onRpcResponse tracker success result s).state.rpcs = deleteKey tracker s.rpcs) := by
  unfold onRpcResponse
  split
  · simp
  · simp only []
    split
    · split
      · split <;> simp [buildCapability]
      · simp
    · simp

theorem onScopeResponse_frame (tracker : Nat) (success result : Value) (s : State) :
    (onScopeResponse tracker success result s).state.serial = s.serial ∧
    (onScopeResponse tracker success result s).state.scopeSerial = s.scopeSerial ∧
    (onScopeResponse tracker success result s).state.rpcs = s.rpcs ∧
    ((onScopeResponse tracker success result s).state.scopeCalls = s.scopeCalls ∨
     (onScopeResponse tracker success result s).state.scopeCalls
       = deleteKey tracker s.scopeCalls) := by
  unfold onScopeResponse
  split
  · simp
  · simp only []
    split
    · simp
    · split <;> simp [buildCapability]

theorem client_scope_frame (name : String) (manifest : Option Manifest) (s : State) :
    (client_scope name manifest s).state.serial = s.serial ∧
    (client_scope name manifest s).state.rpcs = s.rpcs ∧
    (∀ v, cachedManifest name s = some v →
      (client_scope name manifest s).state.scopeSerial = s.scopeSerial ∧
      (client_scope name manifest s).state.scopeCalls = s.scopeCalls) := by
  unfold client_scope
  simp only []
  split
  · simp
  · rename_i h
    refine ⟨?_, ?_, ?_⟩
    · split <;> simp [deferSend]
    · split <;> simp [deferSend]
    · intro v hv
      rw [h] at hv
      exact absurd hv (by simp)

theorem issuesRpc_of_frame (a : Action) (ht : touchesTables a = false) : issuesRpc a = false := by
  cases a <;> simp [touchesTables] at ht <;> rfl

theorem issuesScope_of_frame (a : Action) (s : State) (ht : touchesTables a = false) :
    issuesScope s a = false := by
  cases a <;> simp [touchesTables] at ht <;> rfl

/-- One event either runs `client.rpc`, which takes the next serial and stores
an entry under it, or leaves the rpc counter alone and adds no key to `rpcs`. -/
theorem step_rpc_shape (a : Action) (s : State) :
    (issuesRpc a = true →
      (step a s).state.serial = s.serial + 1 ∧
      ∃ e, (step a s).state.rpcs = setKey (s.serial + 1) e s.rpcs) ∧
    (issuesRpc a = false →
      (step a s).state.serial = s.serial ∧
      ∀ k ∈ keysOf (step a s).state.rpcs, k ∈ keysOf s.rpcs) := by
  by_cases ht : touchesTables a = false
  · obtain ⟨h1, -, h3, -⟩ := step_frame a s ht
    refine ⟨fun h => ?_, fun _ => ?_⟩
    · rw [issuesRpc_of_frame a ht] at h
      exact absurd h (by decide)
    · rw [h1, h3]
      exact ⟨rfl, fun _ hk => hk⟩
  · cases a <;> simp [touchesTables] at ht
    · rename_i scope api args
      obtain ⟨h1, h2, -⟩ := client_rpc_state scope api args s
      refine ⟨fun _ => ⟨h1, _, h2⟩, fun h => ?_⟩
      simp [issuesRpc] at h
    · rename_i name manifest
      obtain ⟨h1, h2, -⟩ := client_scope_frame name manifest s
      refine ⟨fun h => ?_, fun _ => ?_⟩
      · simp [issuesRpc] at h
      · simp [step, h1, h2]
    · rename_i obj member args
      by_cases hm : hasMember obj member = true
      · cases obj <;> simp [hasMember] at hm
        rename_i ref scopeId members
        obtain ⟨h1, h2, -⟩ := client_rpc_state scopeId member args s
        refine ⟨fun _ => ?_, fun h => ?_⟩
        · simp only [step, invokeMember, hm, if_true]
          exact ⟨h1, _, h2⟩
        · simp [issuesRpc, hasMember, hm] at h
      · refine ⟨fun h => ?_, fun _ => ?_⟩
        · simp only [issuesRpc] at h
          exact absurd h hm
        · cases obj <;> simp [hasMember] at hm <;> simp [step, invokeMember, hm]
    · rename_i k d
      refine ⟨fun h => ?_, fun _ => ?_⟩
      · simp [issuesRpc] at h
      · simp only [step]
        split
        · cases d with
          | event nm data => simp [sock_onmessage]
          | action payload => simp [sock_onmessage]
          | rpcResponse tracker success result =>
            obtain ⟨h1, -, -, h4⟩ := onRpcResponse_frame tracker success result s
            simp only [sock_onmessage]
            refine ⟨h1, ?_⟩
            intro x hx
            rcases h4 with h | h
            · rw [h] at hx; exact hx
            · rw [h] at hx; exact mem_keysOf_deleteKey tracker x s.rpcs hx
          | scopeResponse tracker success result =>
            obtain ⟨h1, -, h3, -⟩ := onScopeResponse_frame tracker success result s
            simp [sock_onmessage, h1, h3]
        · simp [unchanged]
    · rename_i k
      refine ⟨fun h => ?_, fun _ => ?_⟩
      · simp [issuesRpc] at h
      · simp only [step]
        split <;> simp [sock_onclose, setReadyState, unchanged, keysOf]
    · rename_i k message
      refine ⟨fun h => ?_, fun _ => ?_⟩
      · simp [issuesRpc] at h
      · simp only [step]
        split <;> simp [sock_onerror, unchanged, keysOf]

/-- One event either makes a scope request, which takes the next scope serial
and stores an entry under it, or leaves the scope counter alone and adds no key
to `scopeCalls`. -/
theorem step_scope_shape (a : Action) (s : State) :
    (issuesScope s a = true →
      (step a s).state.scopeSerial = s.scopeSerial + 1 ∧
      ∃ e, (step a s).state.scopeCalls = setKey (s.scopeSerial + 1) e s.scopeCalls) ∧
    (issuesScope s a = false →
      (step a s).state.scopeSerial = s.scopeSerial ∧
      ∀ k ∈ keysOf (step a s).state.scopeCalls, k ∈ keysOf s.scopeCalls) := by
  by_cases ht : touchesTables a = false
  · obtain ⟨-, h2, -, h4, -⟩ := step_frame a s ht
    refine ⟨fun h => ?_, fun _ => ?_⟩
    · rw [issuesScope_of_frame a s ht] at h
      exact absurd h (by decide)
    · rw [h2, h4]
      exact ⟨rfl, fun _ hk => hk⟩
  · cases a <;> simp [touchesTables] at ht
    · rename_i scope api args
      obtain ⟨-, -, h3, h4, -⟩ := client_rpc_state scope api args s
      refine ⟨fun h => ?_, fun _ => ?_⟩
      · simp [issuesScope] at h
      · simp [step, h3, h4]
    · rename_i name manifest
      cases hc : cachedManifest name s with
      | none =>
        obtain ⟨h1, h2, -⟩ := client_scope_miss name manifest s hc
        refine ⟨fun _ => ⟨h1, _, h2⟩, fun h => ?_⟩
        simp [issuesScope, hc] at h
      | some v =>
        obtain ⟨h1, h2⟩ := (client_scope_frame name manifest s).2.2 v hc
        refine ⟨fun h => ?_, fun _ => ?_⟩
        · simp [issuesScope, hc] at h
        · simp [step, h1, h2]
    · rename_i obj member args
      refine ⟨fun h => ?_, fun _ => ?_⟩
      · simp [issuesScope] at h
      · cases obj with
        | capability ref scopeId members =>
          simp only [step, invokeMember]
          split
          · obtain ⟨-, -, h3, h4, -⟩ := client_rpc_state scopeId member args s
            simp [h3, h4]
          · simp
        | _ => simp [step, invokeMember]
    · rename_i k d
      refine ⟨fun h => ?_, fun _ => ?_⟩
      · simp [issuesScope] at h
      · simp only [step]
        split
        · cases d with
          | event nm data => simp [sock_onmessage]
          | action payload => simp [sock_onmessage]
          | rpcResponse tracker success result =>
            obtain ⟨-, h2, h3, -⟩ := onRpcResponse_frame tracker success result s
            simp [sock_onmessage, h2, h3]
          | scopeResponse tracker success result =>
            obtain ⟨-, h2, -, h4⟩ := onScopeResponse_frame tracker success result s
            simp only [sock_onmessage]
            refine ⟨h2, ?_⟩
            intro x hx
            rcases h4 with h | h
            · rw [h] at hx; exact hx
            · rw [h] at hx; exact mem_keysOf_deleteKey tracker x s.scopeCalls hx
        · simp [unchanged]
    · rename_i k
      refine ⟨fun h => ?_, fun _ => ?_⟩
      · simp [issuesScope] at h
      · simp only [step]
        split <;> simp [sock_onclose, setReadyState, unchanged, keysOf]
    · rename_i k message
      refine ⟨fun h => ?_, fun _ => ?_⟩
      · simp [issuesScope] at h
      · simp only [step]
        split <;> simp [sock_onerror, unchanged, keysOf]

/-- Keys between 1 and the counter stay so when the next serial is stored. -/
theorem keys_bounded_setKey {α : Type} (n : Nat) (e : α) (t : List (Nat × α))
    (h : ∀ k ∈ keysOf t, 1 ≤ k ∧ k ≤ n) :
    ∀ k ∈ keysOf (setKey (n + 1) e t), 1 ≤ k ∧ k ≤ n + 1 := by
  intro k hk
  rcases mem_keysOf_setKey (n + 1) k e t hk with h1 | h1
  · omega
  · have := h k h1
    omega

/-- The invariant of the serial counters along any run. -/
theorem run_serials (acts : List Action) (s : State)
    (hr : ∀ k ∈ keysOf s.rpcs, 1 ≤ k ∧ k ≤ s.serial)
    (hs : ∀ k ∈ keysOf s.scopeCalls, 1 ≤ k ∧ k ≤ s.scopeSerial) :
    (∀ k ∈ keysOf (run acts s).rpcs, 1 ≤ k ∧ k ≤ (run acts s).serial) ∧
    (∀ k ∈ keysOf (run acts s).scopeCalls, 1 ≤ k ∧ k ≤ (run acts s).scopeSerial) ∧
    (run acts s).serial = s.serial + rpcIssued acts ∧
    (run acts s).scopeSerial = s.scopeSerial + scopeIssued s acts := by
  induction acts generalizing s with
  | nil => exact ⟨hr, hs, rfl, rfl⟩
  | cons a rest ih =>
    have hr' : (∀ k ∈ keysOf (step a s).state.rpcs, 1 ≤ k ∧ k ≤ (step a s).state.serial) ∧
        (step a s).state.serial = s.serial + (if issuesRpc a then 1 else 0) := by
      obtain ⟨p1, p2⟩ := step_rpc_shape a s
      cases hi : issuesRpc a
      · obtain ⟨q1, q2⟩ := p2 hi
        rw [q1]
        exact ⟨fun k hk => hr k (q2 k hk), by simp⟩
      · obtain ⟨q1, e, q2⟩ := p1 hi
        rw [q1, q2]
        exact ⟨keys_bounded_setKey s.serial e s.rpcs hr, by simp⟩
    have hs' : (∀ k ∈ keysOf (step a s).state.scopeCalls,
          1 ≤ k ∧ k ≤ (step a s).state.scopeSerial) ∧
        (step a s).state.scopeSerial = s.scopeSerial + (if issuesScope s a then 1 else 0) := by
      obtain ⟨p1, p2⟩ := step_scope_shape a s
      cases hi : issuesScope s a
      · obtain ⟨q1, q2⟩ := p2 hi
        rw [q1]
        exact ⟨fun k hk => hs k (q2 k hk), by simp⟩
      · obtain ⟨q1, e, q2⟩ := p1 hi
        rw [q1, q2]
        exact ⟨keys_bounded_setKey s.scopeSerial e s.scopeCalls hs, by simp⟩
    obtain ⟨i1, i2, i3, i4⟩ := ih (step a s).state hr'.1 hs'.1
    refine ⟨i1, i2, ?_, ?_⟩
    · simp only [run, rpcIssued]
      rw [i3, hr'.2]
      omega
    · simp only [run, scopeIssued]
      rw [i4, hs'.2]
      omega

/-- C6: in every state a session can reach, every key of `rpcs` lies between 1
and `serial` and every key of `scopeCalls` between 1 and `scopeSerial`; no event
whatever (response, close, error, connect, reconnect, ...) decreases a counter;
`serial` equals the number of times `client.rpc` ran and `scopeSerial` the number
of scope requests made, so the next rpc is issued with serial one more than the
number issued before, under a key that holds no live entry, and it leaves every
other entry as it was; likewise for scope requests. -/
theorem C6_serials (host : String) (network : Bool) (acts : List Action) :
    (∀ k ∈ keysOf (reached host network acts).rpcs,
      1 ≤ k ∧ k ≤ (reached host network acts).serial) ∧
    (∀ k ∈ keysOf (reached host network acts).scopeCalls,
      1 ≤ k ∧ k ≤ (reached host network acts).scopeSerial) ∧
    (∀ a, (reached host network acts).serial ≤ (step a (reached host network acts)).state.serial ∧
      (reached host network acts).scopeSerial
        ≤ (step a (reached host network acts)).state.scopeSerial) ∧
    (reached host network acts).serial = rpcIssued acts ∧
    (reached host network acts).scopeSerial = scopeIssued (initialState host network) acts ∧
    (∀ scope api args,
      lookupKey (rpcIssued acts + 1) (reached host network acts).rpcs = none ∧
      (client_rpc scope api args (reached host network acts)).state.serial = rpcIssued acts + 1 ∧
      lookupKey (rpcIssued acts + 1)
          (client_rpc scope api args (reached host network acts)).state.rpcs
        = some { deferred := (reached host network acts).promises, scopeId := scope } ∧
      (∀ j, j ≠ rpcIssued acts + 1 →
        lookupKey j (client_rpc scope api args (reached host network acts)).state.rpcs
          = lookupKey j (reached host network acts).rpcs) ∧
      (isConnected (reached host network acts) = false →
        (client_rpc scope api args (reached host network acts)).state.pending
          = (reached host network acts).pending
            ++ [Packet.rpcRequest (rpcIssued acts + 1) scope api args]) ∧
      (isConnected (reached host network acts) = true →
        (client_rpc scope api args (reached host network acts)).effects
          = socketSend (Packet.rpcRequest (rpcIssued acts + 1) scope api args)
              (reached host network acts))) ∧
    (∀ name manifest, cachedManifest name (reached host network acts) = none →
      lookupKey (scopeIssued (initialState host network) acts + 1)
          (reached host network acts).scopeCalls = none ∧
      (client_scope name manifest (reached host network acts)).state.scopeSerial
        = scopeIssued (initialState host network) acts + 1 ∧
      lookupKey (scopeIssued (initialState host network) acts + 1)
          (client_scope name manifest (reached host network acts)).state.scopeCalls
        = some { deferred := (reached host network acts).promises, scopeId := name,
                 manifest := manifest } ∧
      (∀ j, j ≠ scopeIssued (initialState host network) acts + 1 →
        lookupKey j (client_scope name manifest (reached host network acts)).state.scopeCalls
          = lookupKey j (reached host network acts).scopeCalls)) := by
  obtain ⟨h1, h2, h3, h4⟩ := run_serials acts (initialState host network)
    (by simp [initialState, keysOf]) (by simp [initialState, keysOf])
  have e3 : (reached host network acts).serial = rpcIssued acts := by
    have : (initialState host network).serial = 0 := rfl
    rw [reached, h3, this, Nat.zero_add]
  have e4 : (reached host network acts).scopeSerial
      = scopeIssued (initialState host network) acts := by
    have : (initialState host network).scopeSerial = 0 := rfl
    rw [reached, h4, this, Nat.zero_add]
  refine ⟨h1, h2, ?_, e3, e4, ?_, ?_⟩
  · intro a
    constructor
    · obtain ⟨p1, p2⟩ := step_rpc_shape a (reached host network acts)
      cases hi : issuesRpc a
      · rw [(p2 hi).1]
      · rw [(p1 hi).1]
        omega
    · obtain ⟨p1, p2⟩ := step_scope_shape a (reached host network acts)
      cases hi : issuesScope (reached host network acts) a
      · rw [(p2 hi).1]
      · rw [(p1 hi).1]
        omega
  · intro scope api args
    obtain ⟨a1, a2, -⟩ := client_rpc_state scope api args (reached host network acts)
    rw [← e3]
    refine ⟨?_, a1, ?_, ?_, ?_, ?_⟩
    · apply lookupKey_eq_none_of_not_mem
      intro hk
      have := (h1 _ hk).2
      simp only [reached] at this
      omega
    · rw [a2]
      exact lookupKey_setKey_self _ _ _
    · intro j hj
      rw [a2]
      exact lookupKey_setKey_ne _ _ _ _ hj
    · intro hdis
      exact (client_rpc_disconnected scope api args _ hdis).1
    · intro hcon
      exact (client_rpc_connected scope api args _ hcon).2
  · intro name manifest hmiss
    obtain ⟨a1, a2, -⟩ := client_scope_miss name manifest (reached host network acts) hmiss
    rw [← e4]
    refine ⟨?_, a1, ?_, ?_⟩
    · apply lookupKey_eq_none_of_not_mem
      intro hk
      have := (h2 _ hk).2
      simp only [reached] at this
      omega
    · rw [a2]
      exact lookupKey_setKey_self _ _ _
    · intro j hj
      rw [a2]
      exact lookupKey_setKey_ne _ _ _ _ hj

/-- Two rpcs, a close that rejects both, and a third rpc: the third is issued
with serial 3 although the table was emptied. -/
theorem C6_serials_witness :
    (client_rpc "user" "getProfile" []
      (reached "ws://host" false
        [Action.connect "/live", Action.rpc "user" "a" [], Action.rpc "user" "b" [],
         Action.sockClose 0, Action.reconnect])).state.pending
      = [Packet.rpcRequest 3 "user" "getProfile" []] :=
  (C6_serials "ws://host" false
    [Action.connect "/live", Action.rpc "user" "a" [], Action.rpc "user" "b" [],
     Action.sockClose 0, Action.reconnect]).2.2.2.2.2.1 "user" "getProfile" [] |>.2.2.2.2.1
    (by decide)

/-! ### Cancelling a queued packet -/

theorem cancelSend_absent (pkt : Packet) (s : State) (h : pkt ∉ s.pending) :
    cancelSend pkt s = s := by
  simp [cancelSend, List.erase_of_not_mem h]

/-- C11 as stated fails: in `threeCalls` the queue is ping, typing, ping; the
cancellation function of the third call removes the first entry, so the queue
becomes typing, ping and not ping, typing; and the cancellation function of
the first of two equal calls, invoked twice, empties the queue, removing the
entry of the second call as well. -/
theorem C11_cancel_removes_equal_packet :
    threeCalls.pending = [Packet.call "chat" "ping" [], Packet.call "chat" "typing" [],
      Packet.call "chat" "ping" []] ∧
    (client_call "chat" "ping" []
      (run [Action.call "chat" "ping" [], Action.call "chat" "typing" []]
        (initialState "ws://host" false))).ret = Ret.cancel (some (Packet.call "chat" "ping" [])) ∧
    (runCancel (some (Packet.call "chat" "ping" [])) threeCalls).state.pending
      = [Packet.call "chat" "typing" [], Packet.call "chat" "ping" []] ∧
    (runCancel (some (Packet.call "chat" "ping" [])) threeCalls).state.pending
      ≠ [Packet.call "chat" "ping" [], Packet.call "chat" "typing" []] ∧
    (run [Action.call "chat" "ping" [], Action.call "chat" "ping" [],
          Action.cancel (some (Packet.call "chat" "ping" []))]
        (initialState "ws://host" false)).pending = [Packet.call "chat" "ping" []] ∧
    (run [Action.call "chat" "ping" [], Action.call "chat" "ping" [],
          Action.cancel (some (Packet.call "chat" "ping" [])),
          Action.cancel (some (Packet.call "chat" "ping" []))]
        (initialState "ws://host" false)).pending = [] := by
  decide

/-- C11, amended: for every state of the queue, invoking the cancellation
function made for a queued packet, when no entry ahead of it holds an equal
packet, removes exactly that entry, keeps the order of the others and changes
nothing else; invoking it when the queue holds no equal packet (the entry was
cancelled before, flushed by `sock.onopen` or cleared by `sock.onclose`)
leaves the state unchanged. -/
theorem C11_cancel (s : State) (pkt : Packet) (pre post : List Packet) (k : Nat)
    (hq : s.pending = pre ++ pkt :: post) (hfirst : pkt ∉ pre) :
    (runCancel (some pkt) s).state = { s with pending := pre ++ post } ∧
    (runCancel (some pkt) s).effects = [] ∧
    (runCancel (some pkt) s).thrown = none ∧
    (pkt ∉ post →
      (runCancel (some pkt) (runCancel (some pkt) s).state).state
        = (runCancel (some pkt) s).state) ∧
    (∀ t : State, pkt ∉ t.pending → (runCancel (some pkt) t).state = t) ∧
    (runCancel (some pkt) (sock_onopen k s).state).state = (sock_onopen k s).state ∧
    (runCancel (some pkt) (sock_onclose s).state).state = (sock_onclose s).state := by
  have hnoop : ∀ t : State, pkt ∉ t.pending → (runCancel (some pkt) t).state = t := by
    intro t ht
    simp only [runCancel]
    exact cancelSend_absent pkt t ht
  have h1 : (runCancel (some pkt) s).state = { s with pending := pre ++ post } := by
    simp only [runCancel, cancelSend, hq]
    rw [List.erase_append_right _ hfirst, List.erase_cons_head]
  refine ⟨h1, rfl, rfl, ?_, hnoop, ?_, ?_⟩
  · intro hpost
    apply hnoop
    rw [h1]
    simp only [List.mem_append, not_or]
    exact ⟨hfirst, hpost⟩
  · apply hnoop
    simp [sock_onopen]
  · apply hnoop
    simp [sock_onclose]

/-- In `threeCalls` the cancellation of the typing call removes the middle entry. -/
theorem C11_cancel_witness :
    (runCancel (some (Packet.call "chat" "typing" [])) threeCalls).state
      = { threeCalls with
          pending := [Packet.call "chat" "ping" []] ++ [Packet.call "chat" "ping" []] } :=
  (C11_cancel threeCalls (Packet.call "chat" "typing" []) [Packet.call "chat" "ping" []]
    [Packet.call "chat" "ping" []] 0 (by decide) (by decide)).1

/-! ### Listeners -/

/-- C12 fails on the code: the function returned by `on(event, listener)` keeps,
of the listeners of the event, exactly those equal to `listener` and drops all
the others; in `twoListeners`, after the function returned for listener 1 has
run, firing `connect` calls listener 1 and no longer calls listener 2. -/
theorem C12_unsubscribe_keeps_only_listener :
    (∀ (s : State) (event : String) (listener : Nat) (ls : List Nat),
      lookupKey event s.listeners = some ls →
      lookupKey event (unsubscribe event listener s).state.listeners
        = some (ls.filter (fun l => decide (l = listener)))) ∧
    fire "connect" Value.undefined twoListeners
      = [Effect.listener 1 Value.undefined, Effect.listener 2 Value.undefined] ∧
    (client_on "connect" 1 (initialState "ws://host" false)).ret = Ret.unsubscribe "connect" 1 ∧
    fire "connect" Value.undefined (unsubscribe "connect" 1 twoListeners).state
      = [Effect.listener 1 Value.undefined] := by
  refine ⟨?_, by decide, by decide, by decide⟩
  intro s event listener ls h
  simp only [unsubscribe, h]
  exact lookupKey_setProp_self _ _ _

/-! ### The current socket -/

theorem updateSock_length (f : Sock → Sock) (k : Nat) (l : List Sock) :
    (updateSock f k l).length = l.length := by
  induction l generalizing k with
  | nil => cases k <;> rfl
  | cons sk r ih =>
    cases k with
    | zero => rfl
    | succ k => simp [updateSock, ih]

theorem updateSock_url (f : Sock → Sock) (hf : ∀ sk, (f sk).url = sk.url) (k : Nat)
    (l : List Sock) : (updateSock f k l).map Sock.url = l.map Sock.url := by
  induction l generalizing k with
  | nil => cases k <;> rfl
  | cons sk r ih =>
    cases k with
    | zero => simp [updateSock, hf]
    | succ k => simp [updateSock, ih]

theorem closeSocket_sockets (k : Nat) (s : State) :
    (closeSocket k s).socket = s.socket ∧
    (closeSocket k s).sockets.map Sock.url = s.sockets.map Sock.url ∧
    (closeSocket k s).hasNetwork = s.hasNetwork ∧
    (closeSocket k s).host = s.host := by
  refine ⟨rfl, ?_, rfl, rfl⟩
  simp only [closeSocket]
  apply updateSock_url
  intro sk
  split <;> rfl

theorem setReadyState_sockets (k : Nat) (r : ReadyState) (s : State) :
    (setReadyState k r s).socket = s.socket ∧
    (setReadyState k r s).sockets.map Sock.url = s.sockets.map Sock.url := by
  refine ⟨rfl, ?_⟩
  simp only [setReadyState]
  apply updateSock_url
  intro sk
  rfl

theorem closeCurrent_sockets (s : State) :
    (closeCurrent s).1.socket = s.socket ∧
    (closeCurrent s).1.sockets.map Sock.url = s.sockets.map Sock.url ∧
    (closeCurrent s).1.hasNetwork = s.hasNetwork ∧
    (closeCurrent s).1.host = s.host ∧
    (closeCurrent s).2 = (match s.socket with
      | some k => [Effect.socketClose k]
      | none => []) := by
  unfold closeCurrent
  split
  · rename_i k hk
    obtain ⟨h1, h2, h3, h4⟩ := closeSocket_sockets k s
    simp only [h1, h2, h3, h4, hk, and_self]
  · rename_i hk
    simp [hk]

/-- The url of socket `k`, read from the list of urls. -/
theorem get?_url (l : List Sock) (k : Nat) :
    (l.get? k).map Sock.url = (l.map Sock.url).get? k := by
  simp [List.get?_eq_getElem?, List.getElem?_map]

/-- The value of `socket.url` depends only on `socket` and on the urls of the sockets. -/
theorem socketUrl_congr (s t : State) (h1 : t.socket = s.socket)
    (h2 : t.sockets.map Sock.url = s.sockets.map Sock.url) : socketUrl t = socketUrl s := by
  unfold socketUrl
  rw [h1]
  cases s.socket with
  | none => rfl
  | some k =>
    simp only []
    rw [get?_url, get?_url, h2]

/-- The statements `if (socket !== null) socket.close(); socket = connection(url);`
shared by `connect` and `reconnect`: the current socket, if any, is closed first,
then one socket is made for `url` and becomes the current one. -/
theorem replace_socket (url : String) (s : State) :
    (connection (some url) (closeCurrent s).1).1 = some s.sockets.length ∧
    (connection (some url) (closeCurrent s).1).2.1.sockets.map Sock.url
      = s.sockets.map Sock.url ++ [url] ∧
    (connection (some url) (closeCurrent s).1).2.1.sockets.get? s.sockets.length
      = some { url := url, readyState := ReadyState.connecting } ∧
    (closeCurrent s).2 ++ (connection (some url) (closeCurrent s).1).2.2
      = (match s.socket with
          | some k => [Effect.socketClose k]
          | none => []) ++ [Effect.socketNew s.sockets.length url] ∧
    (connection (some url) (closeCurrent s).1).2.1.hasNetwork = s.hasNetwork ∧
    (connection (some url) (closeCurrent s).1).2.1.host = s.host := by
  obtain ⟨-, h2, h3, h4, h5⟩ := closeCurrent_sockets s
  have hlen : (closeCurrent s).1.sockets.length = s.sockets.length := by
    have := congrArg List.length h2
    simpa using this
  refine ⟨?_, ?_, ?_, ?_, ?_, ?_⟩
  · simp [connection, hlen]
  · simp [connection, h2]
  · simp only [connection]
    rw [← hlen, List.get?_eq_getElem?, List.getElem?_append_right (Nat.le_refl _)]
    simp
  · rw [h5]
    simp [connection, hlen]
  · simp [connection, h3]
  · simp [connection, h4]

/-- C14: when the session is connected and the url of its socket is
`host + path`, `connect(path)` returns true and does nothing else: no socket
closed, none made, state unchanged; in every other state it calls `close()` on
the current socket, if there is one, and then makes exactly one socket, for
`host + path`, which becomes the current socket; nothing else of the session
changes. -/
theorem C14_connect (s : State) (path : String) :
    (isConnected s = true → socketUrl s = some (s.host ++ path) →
      client_connect path s
        = { state := s, effects := [], thrown := none, ret := Ret.bool true }) ∧
    (¬ (isConnected s = true ∧ socketUrl s = some (s.host ++ path)) →
      (client_connect path s).effects
        = (match s.socket with
            | some k => [Effect.socketClose k]
            | none => []) ++ [Effect.socketNew s.sockets.length (s.host ++ path)] ∧
      closedSockets (client_connect path s).effects = s.socket.toList ∧
      created (client_connect path s).effects = [(s.sockets.length, s.host ++ path)] ∧
      (client_connect path s).state.socket = some s.sockets.length ∧
      (client_connect path s).state.sockets.map Sock.url
        = s.sockets.map Sock.url ++ [s.host ++ path] ∧
      (client_connect path s).state.sockets.get? s.sockets.length
        = some { url := s.host ++ path, readyState := ReadyState.connecting } ∧
      (client_connect path s).state.pending = s.pending ∧
      (client_connect path s).state.rpcs = s.rpcs ∧
      (client_connect path s).state.scopeCalls = s.scopeCalls ∧
      (client_connect path s).state.scopeManifests = s.scopeManifests ∧
      (client_connect path s).thrown = none ∧
      (client_connect path s).ret = Ret.bool true) := by
  constructor
  · intro hc hu
    simp [client_connect, hc, hu]
  · intro hn
    have hcond : (isConnected s && decide (socketUrl s = some (s.host ++ path))) = false := by
      cases hc : isConnected s
      · rfl
      · simp only [Bool.true_and, decide_eq_false_iff_not]
        exact fun hu => hn ⟨hc, hu⟩
    obtain ⟨r1, r2, r3, r4, -, -⟩ := replace_socket (s.host ++ path) s
    obtain ⟨-, -, f3, f4, f5, f6⟩ := client_connect_frame path s
    have heff : (client_connect path s).effects
        = (match s.socket with
            | some k => [Effect.socketClose k]
            | none => []) ++ [Effect.socketNew s.sockets.length (s.host ++ path)] := by
      simp only [client_connect, hcond]
      exact r4
    refine ⟨heff, ?_, ?_, ?_, ?_, ?_, f6, f3, f4, f5, ?_, ?_⟩
    · rw [heff]
      cases s.socket <;> simp [closedSockets]
    · rw [heff]
      cases s.socket <;> simp [created]
    · simp only [client_connect, hcond]
      exact r1
    · simp only [client_connect, hcond]
      exact r2
    · simp only [client_connect, hcond]
      exact r3
    · simp [client_connect, hcond]
    · simp [client_connect, hcond]

theorem onRpcResponse_sockets (tracker : Nat) (success result : Value) (s : State) :
    (onRpcResponse tracker success result s).state.socket = s.socket ∧
    (onRpcResponse tracker success result s).state.sockets = s.sockets ∧
    (onRpcResponse tracker success result s).state.hasNetwork = s.hasNetwork := by
  unfold onRpcResponse
  split
  · simp
  · simp only []
    split
    · split
      · split <;> simp [buildCapability]
      · simp
    · simp

theorem onScopeResponse_sockets (tracker : Nat) (success result : Value) (s : State) :
    (onScopeResponse tracker success result s).state.socket = s.socket ∧
    (onScopeResponse tracker success result s).state.sockets = s.sockets ∧
    (onScopeResponse tracker success result s).state.hasNetwork = s.hasNetwork := by
  unfold onScopeResponse
  split
  · simp
  · simp only []
    split
    · simp
    · split <;> simp [buildCapability]

theorem client_rpc_sockets (scope api : String) (args : List Value) (s : State) :
    (client_rpc scope api args s).state.socket = s.socket ∧
    (client_rpc scope api args s).state.sockets = s.sockets ∧
    (client_rpc scope api args s).state.hasNetwork = s.hasNetwork := by
  unfold client_rpc
  simp only []
  split <;> simp [deferSend]

theorem client_scope_sockets (name : String) (manifest : Option Manifest) (s : State) :
    (client_scope name manifest s).state.socket = s.socket ∧
    (client_scope name manifest s).state.sockets = s.sockets ∧
    (client_scope name manifest s).state.hasNetwork = s.hasNetwork := by
  unfold client_scope
  simp only []
  split
  · simp
  · split <;> simp [deferSend]

/-- The events other than `connect`, `reconnect`, `close` and the network edges
leave `socket` as it is and the url of every socket as it is. -/
theorem step_socket_frame (a : Action) (s : State) (h : isLifecycle a = false) :
    (step a s).state.socket = s.socket ∧
    (step a s).state.sockets.map Sock.url = s.sockets.map Sock.url ∧
    (step a s).state.hasNetwork = s.hasNetwork := by
  cases a <;> simp [isLifecycle] at h
  · rename_i event listener
    simp only [step, client_on]
    split <;> simp
  · rename_i event listener
    simp only [step, unsubscribe]
    split <;> simp
  · rename_i scope api args
    simp only [step, client_call]
    split <;> simp [deferSend]
  · rename_i pkt
    simp only [step, runCancel]
    split <;> simp [cancelSend]
  · rename_i scope api args
    obtain ⟨h1, h2, h3⟩ := client_rpc_sockets scope api args s
    simp [step, h1, h2, h3]
  · rename_i name manifest
    obtain ⟨h1, h2, h3⟩ := client_scope_sockets name manifest s
    simp [step, h1, h2, h3]
  · rename_i obj member args
    cases obj with
    | capability ref scopeId members =>
      simp only [step, invokeMember]
      split
      · obtain ⟨h1, h2, h3⟩ := client_rpc_sockets scopeId member args s
        simp [h1, h2, h3]
      · simp
    | _ => simp [step, invokeMember]
  · rename_i k
    simp only [step]
    split
    · obtain ⟨h1, h2⟩ := setReadyState_sockets k ReadyState.opened s
      simp only [sock_onopen]
      exact ⟨h1, h2, rfl⟩
    · simp [unchanged]
  · rename_i k d
    simp only [step]
    split
    · cases d with
      | event nm data => simp [sock_onmessage]
      | action payload => simp [sock_onmessage]
      | rpcResponse tracker success result =>
        obtain ⟨h1, h2, h3⟩ := onRpcResponse_sockets tracker success result s
        simp [sock_onmessage, h1, h2, h3]
      | scopeResponse tracker success result =>
        obtain ⟨h1, h2, h3⟩ := onScopeResponse_sockets tracker success result s
        simp [sock_onmessage, h1, h2, h3]
    · simp [unchanged]
  · rename_i k
    simp only [step]
    split
    · obtain ⟨h1, h2⟩ := setReadyState_sockets k ReadyState.closed s
      simp only [sock_onclose]
      exact ⟨h1, h2, rfl⟩
    · simp [unchanged]
  · rename_i k message
    simp only [step]
    split <;> simp [sock_onerror, unchanged]

/-- What `reconnect()` does when `socket` is socket `k`, whose url is `sk.url`. -/
theorem client_reconnect_some (s : State) (k : Nat) (sk : Sock)
    (hk : s.socket = some k) (hsk : s.sockets.get? k = some sk) :
    (client_reconnect s).effects
      = [Effect.socketClose k, Effect.socketNew s.sockets.length sk.url] ∧
    (client_reconnect s).state.socket = some s.sockets.length ∧
    (client_reconnect s).state.sockets.map Sock.url = s.sockets.map Sock.url ++ [sk.url] ∧
    (client_reconnect s).state.sockets.get? s.sockets.length
      = some { url := sk.url, readyState := ReadyState.connecting } ∧
    (client_reconnect s).ret = Ret.bool true ∧
    (client_reconnect s).thrown = none ∧
    (client_reconnect s).state.hasNetwork = s.hasNetwork := by
  have hu : socketUrl s = some sk.url := by
    simp only [socketUrl, hk, hsk, Option.map_some']
  obtain ⟨r1, r2, r3, r4, r5, -⟩ := replace_socket sk.url s
  rw [hk] at r4
  have hst : client_reconnect s =
      { state := { (connection (some sk.url) (closeCurrent s).1).2.1 with
                   socket := (connection (some sk.url) (closeCurrent s).1).1 },
        effects := (closeCurrent s).2 ++ (connection (some sk.url) (closeCurrent s).1).2.2,
        thrown := none, ret := Ret.bool true } := by
    simp only [client_reconnect, hk, hu]
  rw [hst]
  exact ⟨r4, r1, r2, r3, rfl, rfl, r5⟩

/-- What `connect(path)` does to the sockets: nothing, or one more socket that
becomes the current one. -/
theorem client_connect_sockets (path : String) (s : State) :
    (client_connect path s).state = s ∨
    ((client_connect path s).state.socket = some s.sockets.length ∧
     (client_connect path s).state.sockets.map Sock.url
       = s.sockets.map Sock.url ++ [s.host ++ path]) := by
  by_cases hc : (isConnected s && decide (socketUrl s = some (s.host ++ path))) = true
  · left
    simp [client_connect, hc]
  · right
    obtain ⟨r1, r2, -⟩ := replace_socket (s.host ++ path) s
    simp only [client_connect, hc]
    exact ⟨r1, r2⟩

/-- In a state where `socket`, if set, is one of the sockets made, an event
leaves `socket` and the urls as they are, or sets `socket` to null, or makes
one more socket and sets `socket` to it. -/
theorem step_socket_shape (a : Action) (s : State)
    (h : ∀ k, s.socket = some k → k < s.sockets.length) :
    ((step a s).state.socket = s.socket ∧
      (step a s).state.sockets.map Sock.url = s.sockets.map Sock.url) ∨
    (step a s).state.socket = none ∨
    ((step a s).state.socket = some s.sockets.length ∧
      (step a s).state.sockets.length = s.sockets.length + 1) := by
  have hrec : ((client_reconnect s).state.socket = s.socket ∧
        (client_reconnect s).state.sockets.map Sock.url = s.sockets.map Sock.url) ∨
      (client_reconnect s).state.socket = none ∨
      ((client_reconnect s).state.socket = some s.sockets.length ∧
        (client_reconnect s).state.sockets.length = s.sockets.length + 1) := by
    cases hs : s.socket with
    | none =>
      left
      simp [client_reconnect, hs]
    | some k0 =>
      have hlt := h k0 hs
      obtain ⟨sk, hsk⟩ : ∃ sk, s.sockets.get? k0 = some sk :=
        ⟨s.sockets.get ⟨k0, hlt⟩, List.get?_eq_get hlt⟩
      obtain ⟨-, r2, r3, -⟩ := client_reconnect_some s k0 sk hs hsk
      right; right
      refine ⟨r2, ?_⟩
      have hl := congrArg List.length r3
      simpa using hl
  by_cases hl : isLifecycle a = false
  · obtain ⟨h1, h2, -⟩ := step_socket_frame a s hl
    exact Or.inl ⟨h1, h2⟩
  · cases a <;> simp [isLifecycle] at hl
    · rename_i path
      rcases client_connect_sockets path s with h1 | ⟨h1, h2⟩
      · left
        simp only [step]
        rw [h1]
        exact ⟨rfl, rfl⟩
      · right; right
        refine ⟨h1, ?_⟩
        have hl := congrArg List.length h2
        simpa [step] using hl
    · exact hrec
    · simp only [step, client_close]
      split
      · exact Or.inl ⟨rfl, rfl⟩
      · exact Or.inr (Or.inl rfl)
    · simp only [step, network_online]
      split
      · exact hrec
      · exact Or.inl ⟨rfl, rfl⟩
    · simp only [step, network_offline]
      split
      · obtain ⟨c1, c2, -⟩ := closeCurrent_sockets s
        exact Or.inl ⟨c1, c2⟩
      · exact Or.inl ⟨rfl, rfl⟩

/-- In every state a session can reach, `socket` is null or one of the sockets made. -/
theorem run_socket_valid (acts : List Action) (s : State)
    (h : ∀ k, s.socket = some k → k < s.sockets.length) :
    ∀ k, (run acts s).socket = some k → k < (run acts s).sockets.length := by
  induction acts generalizing s with
  | nil => exact h
  | cons a rest ih =>
    simp only [run]
    apply ih
    intro k hk
    rcases step_socket_shape a s h with ⟨h1, h2⟩ | h1 | ⟨h1, h2⟩
    · have hl : (step a s).state.sockets.length = s.sockets.length := by
        have := congrArg List.length h2
        simpa using this
      rw [hl]
      exact h k (h1 ▸ hk)
    · rw [h1] at hk
      exact absurd hk (by simp)
    · rw [h1] at hk
      cases hk
      omega

/-! ### Connect, reconnect, close -/

/-- C13: in every state in which `socket` is null `reconnect()` returns false,
raises nothing, makes and closes no socket and leaves the whole state
unchanged; and in every state a session can reach in which no socket has been
made, `socket` is null, so `reconnect()` does exactly that. -/
theorem C13_reconnect_without_socket (s : State) :
    (s.socket = none →
      client_reconnect s
        = { state := s, effects := [], thrown := none, ret := Ret.bool false }) ∧
    (∀ (host : String) (network : Bool) (acts : List Action),
      (reached host network acts).sockets = [] →
      (reached host network acts).socket = none ∧
      client_reconnect (reached host network acts)
        = { state := reached host network acts, effects := [], thrown := none,
            ret := Ret.bool false }) := by
  have key : ∀ t : State, t.socket = none →
      client_reconnect t
        = { state := t, effects := [], thrown := none, ret := Ret.bool false } := by
    intro t ht
    simp [client_reconnect, ht]
  refine ⟨key s, ?_⟩
  intro host network acts hempty
  have hvalid := run_socket_valid acts (initialState host network)
    (by intro k hk; simp [initialState] at hk)
  have hnone : (reached host network acts).socket = none := by
    cases hs : (reached host network acts).socket with
    | none => rfl
    | some k =>
      have := hvalid k hs
      simp only [reached] at hempty
      rw [hempty] at this
      exact absurd this (by simp)
  exact ⟨hnone, key _ hnone⟩

/-- On a fresh session `reconnect()` returns false and changes nothing. -/
theorem C13_reconnect_without_socket_witness :
    client_reconnect (initialState "ws://host" false) =
      { state := initialState "ws://host" false, effects := [], thrown := none,
        ret := Ret.bool false } :=
  (C13_reconnect_without_socket (initialState "ws://host" false)).1 rfl

/-- After the path did not resolve to the url of an open socket, `connect`
closes socket 0 and makes socket 1 for the new url. -/
theorem C14_connect_witness :
    created (client_connect "/other" liveSession).effects = [(1, "ws://host/other")] :=
  ((C14_connect liveSession "/other").2 (by decide)).2.2.1

/-- C15: in every state in which `socket` is one of the sockets made, socket
`k` with url `sk.url`, `reconnect()` calls `close()` on `k` and after that makes
exactly one socket, for the same url `sk.url`; this socket becomes the current
one, and `reconnect()` returns true. -/
theorem C15_reconnect (s : State) (k : Nat) (sk : Sock)
    (hk : s.socket = some k) (hsk : s.sockets.get? k = some sk) :
    (client_reconnect s).effects
      = [Effect.socketClose k, Effect.socketNew s.sockets.length sk.url] ∧
    closedSockets (client_reconnect s).effects = [k] ∧
    created (client_reconnect s).effects = [(s.sockets.length, sk.url)] ∧
    (client_reconnect s).state.socket = some s.sockets.length ∧
    (client_reconnect s).state.sockets.get? s.sockets.length
      = some { url := sk.url, readyState := ReadyState.connecting } ∧
    socketUrl (client_reconnect s).state = some sk.url ∧
    (client_reconnect s).state.sockets.length = s.sockets.length + 1 ∧
    (client_reconnect s).ret = Ret.bool true ∧
    (client_reconnect s).thrown = none := by
  obtain ⟨r1, r2, r3, r4, r5, r6, -⟩ := client_reconnect_some s k sk hk hsk
  refine ⟨r1, ?_, ?_, r2, r4, ?_, ?_, r5, r6⟩
  · rw [r1]; rfl
  · rw [r1]; rfl
  · simp only [socketUrl, r2, r4, Option.map_some']
  · have hl := congrArg List.length r3
    simpa using hl

/-- In `liveSession` the socket is socket 0 for `ws://host/live`; `reconnect()`
closes it and makes socket 1 for the same url. -/
theorem C15_reconnect_witness :
    (client_reconnect liveSession).effects
      = [Effect.socketClose 0, Effect.socketNew liveSession.sockets.length "ws://host/live"] :=
  (C15_reconnect liveSession 0 { url := "ws://host/live", readyState := ReadyState.opened }
    (by decide) (by decide)).1

/-- C16: in every state in which `socket` is socket `k`, `close()` calls
`close()` on `k` and nothing else, raises nothing, and sets `socket` to null
while leaving the counters, the tables, the queue and the cache as they are;
afterwards `isConnected()` is false and `reconnect()` returns false and does
nothing. -/
theorem C16_close (s : State) (k : Nat) (hk : s.socket = some k) :
    (client_close s).effects = [Effect.socketClose k] ∧
    (client_close s).thrown = none ∧
    (client_close s).state.socket = none ∧
    (client_close s).state.pending = s.pending ∧
    (client_close s).state.rpcs = s.rpcs ∧
    (client_close s).state.scopeCalls = s.scopeCalls ∧
    (client_close s).state.scopeManifests = s.scopeManifests ∧
    isConnected (client_close s).state = false ∧
    client_reconnect (client_close s).state
      = { state := (client_close s).state, effects := [], thrown := none,
          ret := Ret.bool false } := by
  have hs : (client_close s).state.socket = none := by
    simp [client_close, hk]
  refine ⟨?_, ?_, hs, ?_, ?_, ?_, ?_, ?_, ?_⟩
  · simp [client_close, hk]
  · simp [client_close, hk]
  · simp [client_close, hk, closeSocket]
  · simp [client_close, hk, closeSocket]
  · simp [client_close, hk, closeSocket]
  · simp [client_close, hk, closeSocket]
  · simp [isConnected, hs, openSocket]
  · simp [client_reconnect, hs]

/-- In `liveSession`, `close()` closes socket 0. -/
theorem C16_close_witness :
    (client_close liveSession).effects = [Effect.socketClose 0] :=
  (C16_close liveSession 0 (by decide)).1

/-! ### Construction -/

/-- C17: `createClient(host, store, ...)` stops at one of its two `throw`
statements, which come before the parser and anything else is created, if and
only if `host` starts with neither `ws://` nor `wss://`, or `store` is missing,
or one of `dispatch`, `getState`, `subscribe` is missing from it; otherwise it
starts from the initial state. The construction of the React binding, which
passes only a host, fails for every host. -/
theorem C17_construction (host : String) (store : Option Store) (network : Bool) :
    (failed (createClient host store network) = true ↔
      ((startsWith host "ws://" = false ∧ startsWith host "wss://" = false) ∨
        store = none ∨
        ∃ st, store = some st ∧
          (st.dispatch = false ∨ st.getState = false ∨ st.subscribe = false))) ∧
    (failed (createClient host store network) = false →
      createClient host store network = Except.ok (initialState host network)) ∧
    failed (reactBinding host) = true := by
  refine ⟨?_, ?_, ?_⟩
  · cases h1 : startsWith host "ws://" <;> cases h2 : startsWith host "wss://" <;>
      cases store with
      | none => simp [createClient, failed, h1, h2]
      | some st =>
        cases hd : st.dispatch <;> cases hg : st.getState <;> cases hs : st.subscribe <;>
          simp [createClient, failed, h1, h2, hd, hg, hs]
  · cases h1 : startsWith host "ws://" <;> cases h2 : startsWith host "wss://" <;>
      cases store with
      | none => simp [createClient, failed, h1, h2]
      | some st =>
        cases hd : st.dispatch <;> cases hg : st.getState <;> cases hs : st.subscribe <;>
          simp [createClient, failed, h1, h2, hd, hg, hs]
  · cases h1 : startsWith host "ws://" <;> cases h2 : startsWith host "wss://" <;>
      simp [reactBinding, createClient, failed, h1, h2]

/-- A valid host with a complete store constructs; the same host alone does not. -/
theorem C17_construction_witness :
    createClient "ws://host" (some { dispatch := true, getState := true, subscribe := true })
      false = Except.ok (initialState "ws://host" false) :=
  (C17_construction "ws://host" (some { dispatch := true, getState := true, subscribe := true })
    false).2.1 (by decide)

/-! ### Calls -/

/-- C18: for every state, `call(scope, api, ...args)` either, when connected,
sends exactly the Call packet on the current socket and changes nothing, or,
when not connected, sends nothing and appends exactly that packet at the end of
`pending`; in both cases the counters, both tables and the cache are as before. -/
theorem C18_call (s : State) (scope api : String) (args : List Value) :
    (isConnected s = true →
      ∃ k, s.socket = some k ∧
        client_call scope api args s
          = { state := s, effects := [Effect.send k (Packet.call scope api args)],
              thrown := none, ret := Ret.cancel none }) ∧
    (isConnected s = false →
      client_call scope api args s
        = { state := { s with pending := s.pending ++ [Packet.call scope api args] },
            effects := [], thrown := none,
            ret := Ret.cancel (some (Packet.call scope api args)) }) ∧
    (client_call scope api args s).state.serial = s.serial ∧
    (client_call scope api args s).state.scopeSerial = s.scopeSerial ∧
    (client_call scope api args s).state.rpcs = s.rpcs ∧
    (client_call scope api args s).state.scopeCalls = s.scopeCalls ∧
    (client_call scope api args s).state.scopeManifests = s.scopeManifests := by
  refine ⟨?_, ?_, ?_⟩
  · intro hc
    cases hs : s.socket with
    | none => simp [isConnected, openSocket, hs] at hc
    | some k =>
      refine ⟨k, rfl, ?_⟩
      simp [client_call, hc, socketSend, hs]
  · intro hd
    simp [client_call, hd, deferSend]
  · exact step_frame (Action.call scope api args) s rfl

/-- In `liveSession` a call is sent on socket 0 at once. -/
theorem C18_call_witness :
    ∃ k, liveSession.socket = some k ∧
      client_call "chat" "ping" [] liveSession
        = { state := liveSession, effects := [Effect.send k (Packet.call "chat" "ping" [])],
            thrown := none, ret := Ret.cancel none } :=
  (C18_call liveSession "chat" "ping" []).1 (by decide)

/-! ### Network edges -/

/-- Events other than `connect`, `reconnect`, `close` and the network edges
leave `socket` and the url of every socket as they are, however many. -/
theorem run_socket_frame (acts : List Action) (s : State)
    (h : ∀ a ∈ acts, isLifecycle a = false) :
    (run acts s).socket = s.socket ∧
    (run acts s).sockets.map Sock.url = s.sockets.map Sock.url ∧
    (run acts s).hasNetwork = s.hasNetwork := by
  induction acts generalizing s with
  | nil => exact ⟨rfl, rfl, rfl⟩
  | cons a rest ih =>
    obtain ⟨h1, h2, h3⟩ := step_socket_frame a s (h a (List.mem_cons_self a rest))
    obtain ⟨i1, i2, i3⟩ := ih (step a s).state (fun b hb => h b (List.mem_cons_of_mem a hb))
    simp only [run]
    exact ⟨i1.trans h1, i2.trans h2, i3.trans h3⟩

/-- The listener of `offline` when `socket` is socket `k`. -/
theorem network_offline_some (s : State) (k : Nat) (hnet : s.hasNetwork = true)
    (hk : s.socket = some k) :
    (network_offline s).effects = [Effect.socketClose k] ∧
    (network_offline s).state.socket = some k ∧
    (network_offline s).state.sockets.map Sock.url = s.sockets.map Sock.url ∧
    (network_offline s).state.hasNetwork = true := by
  obtain ⟨c1, c2, c3, -, c5⟩ := closeCurrent_sockets s
  rw [hk] at c5 c1
  simp only [network_offline, hnet, if_true]
  exact ⟨c5, c1, c2, c3.trans hnet⟩

/-- C19: in a session built with a network, when `socket` is socket `k` with
url `sk.url` (as after `connect(path)`), the `offline` edge calls `close()` on
`k` and makes no socket; after any events that are not `connect`, `reconnect`,
`close` or a network edge (the socket events that follow, requests of the
application), the next `online` edge makes exactly one new socket, for the same
url `sk.url`, which becomes the current one. When `socket` is null neither edge
makes or closes anything. -/
theorem C19_network_edges (s : State) (hnet : s.hasNetwork = true) :
    (∀ (k : Nat) (sk : Sock) (acts : List Action),
      s.socket = some k → s.sockets.get? k = some sk →
      (∀ a ∈ acts, isLifecycle a = false) →
      (network_offline s).effects = [Effect.socketClose k] ∧
      created (network_offline s).effects = [] ∧
      created (network_online (run acts (network_offline s).state)).effects
        = [((run acts (network_offline s).state).sockets.length, sk.url)] ∧
      (network_online (run acts (network_offline s).state)).state.socket
        = some (run acts (network_offline s).state).sockets.length ∧
      socketUrl (network_online (run acts (network_offline s).state)).state = some sk.url) ∧
    (s.socket = none →
      network_offline s = unchanged s ∧ network_online s = unchanged s) := by
  constructor
  · intro k sk acts hk hsk hacts
    obtain ⟨o1, o2, o3, o4⟩ := network_offline_some s k hnet hk
    obtain ⟨f1, f2, f3⟩ := run_socket_frame acts (network_offline s).state hacts
    have tk : (run acts (network_offline s).state).socket = some k := f1.trans o2
    have tnet : (run acts (network_offline s).state).hasNetwork = true := f3.trans o4
    have turl : (run acts (network_offline s).state).sockets.map Sock.url
        = s.sockets.map Sock.url := f2.trans o3
    have hget : ((run acts (network_offline s).state).sockets.get? k).map Sock.url
        = some sk.url := by
      rw [get?_url, turl, ← get?_url, hsk]
      rfl
    obtain ⟨sk2, hsk2, hurl⟩ := Option.map_eq_some'.mp hget
    obtain ⟨r1, r2, -, r4, -, -, -⟩ :=
      client_reconnect_some (run acts (network_offline s).state) k sk2 tk hsk2
    have hon : network_online (run acts (network_offline s).state)
        = { client_reconnect (run acts (network_offline s).state) with ret := Ret.nothing } := by
      simp [network_online, tnet, tk]
    rw [hon]
    refine ⟨o1, ?_, ?_, r2, ?_⟩
    · rw [o1]; rfl
    · simp only [r1, hurl]
      rfl
    · simp only [socketUrl, r2, r4, Option.map_some', hurl]
  · intro hnone
    constructor
    · simp [network_offline, hnet, closeCurrent, hnone, unchanged]
    · simp [network_online, hnone]

/-- In `liveSession`, a session built with a network, the socket is socket 0:
`offline` closes it, its close event follows, and `online` makes socket 1 for
the same url. -/
theorem C19_network_edges_witness :
    created (network_online (run [Action.sockClose 0] (network_offline liveSession).state)).effects
      = [((run [Action.sockClose 0] (network_offline liveSession).state).sockets.length,
          "ws://host/live")] :=
  ((C19_network_edges liveSession (by decide)).1 0
    { url := "ws://host/live", readyState := ReadyState.opened } [Action.sockClose 0]
    (by decide) (by decide) (by decide)).2.2.1

/-! ### Events of a superseded socket -/

/-- C20: the close and error events of any socket that was made, current or
superseded, empty the tables and the queue of the session and reject every
entry; in the sequences `supersededClose` (connect, reconnect, rpc, close event
of socket 0, open event of socket 1) and `supersededCloseOtherUrl` the promise
of the rpc, issued when socket 1 was already the current one, is rejected with
`Connection terminated`, and no packet is ever sent. -/
theorem C20_superseded_close :
    (∀ (s : State) (k : Nat) (message : Value), k < s.sockets.length →
      (step (Action.sockClose k) s).state.rpcs = [] ∧
      (step (Action.sockClose k) s).state.scopeCalls = [] ∧
      (step (Action.sockClose k) s).state.pending = [] ∧
      (step (Action.sockClose k) s).state.scopeManifests = [] ∧
      (step (Action.sockClose k) s).effects = (sock_onclose s).effects ∧
      (step (Action.sockError k message) s).state.rpcs = [] ∧
      (step (Action.sockError k message) s).state.scopeCalls = [] ∧
      (step (Action.sockError k message) s).state.pending = [] ∧
      (step (Action.sockError k message) s).effects = (sock_onerror message s).effects) ∧
    (run [Action.connect "/live", Action.reconnect,
          Action.rpc "user" "getProfile" [Value.num 42]]
        (initialState "ws://host" false)).socket = some 1 ∧
    (run [Action.connect "/live", Action.reconnect,
          Action.rpc "user" "getProfile" [Value.num 42]]
        (initialState "ws://host" false)).pending
      = [Packet.rpcRequest 1 "user" "getProfile" [Value.num 42]] ∧
    settled (trace supersededClose (initialState "ws://host" false))
      = [(0, false, Value.error "Connection terminated")] ∧
    sent (trace supersededClose (initialState "ws://host" false)) = [] ∧
    (run supersededClose (initialState "ws://host" false)).rpcs = [] ∧
    settled (trace supersededCloseOtherUrl (initialState "ws://host" false))
      = [(0, false, Value.error "Connection terminated")] ∧
    sent (trace supersededCloseOtherUrl (initialState "ws://host" false)) = [] := by
  refine ⟨?_, by decide, by decide, by decide, by decide, by decide, by decide, by decide⟩
  intro s k message hk
  simp [step, hk, sock_onclose, sock_onerror, setReadyState, rejections, fire]

end Shocked
